import Mathlib

/-!
Verification development for the mapping-to-column-expression compiler of a
columnar ETL engine (src/app/utils.py and src/app/transformer.py).

The Python source is shallowly embedded: strings become lists of characters,
the DSL parsers become computable Lean functions, Python exceptions become
the `Except` monad, and the columnar backend (polars, an external collaborator
of this repository) is modelled as an executable table/expression evaluator
following its documented semantics.  The mutually recursive parser cluster is
embedded with an explicit fuel parameter (structural recursion on the fuel);
the public wrappers supply fuel that exceeds any recursion depth reachable on
the inputs considered, so concrete runs compute by kernel reduction.
-/

namespace ETL

/-- Character strings of the Python source, embedded as lists of characters. -/
abbrev Str := List Char

/-- Convert a Lean string literal to the embedded string type. -/
def cs (s : String) : Str := s.toList

/-- ASCII whitespace as recognized by Python `str.strip` and the regex class. -/
def isWS (c : Char) : Bool :=
  c = ' ' || c = '\t' || c = '\n' || c = '\x0b' || c = '\x0c' || c = '\r'

/-- Word character of the regex class (letters, digits, underscore; the source
strings are ASCII). -/
def isWordChar (c : Char) : Bool := c.isAlphanum || c = '_'

/-- ASCII lower-casing of one character, as Python `str.lower` on the inputs used. -/
def lowC (c : Char) : Char := c.toLower

/-- ASCII upper-casing of one character, as Python `str.upper`. -/
def upC (c : Char) : Char := c.toUpper

/-- Python `str.lower`. -/
def pyLower (s : Str) : Str := s.map lowC

/-- Python `str.upper`. -/
def pyUpper (s : Str) : Str := s.map upC

/-- Drop leading whitespace. -/
def dropLeadWS (s : Str) : Str := s.dropWhile isWS

/-- Drop trailing whitespace (structurally, so that terms headed by a concrete
non-space character reduce without evaluating the tail). -/
def dropTrailWS : Str → Str
  | [] => []
  | c :: rest =>
    match dropTrailWS rest with
    | [] => if isWS c then [] else [c]
    | r => c :: r

/-- Python `str.strip()`. -/
def pyStrip (s : Str) : Str := dropTrailWS (dropLeadWS s)

/-- Python `str.strip(chars)` for a character set: remove any of the given
characters from both ends. -/
def pyStripSet (set : List Char) (s : Str) : Str :=
  ((s.dropWhile (set.contains ·)).reverse.dropWhile (set.contains ·)).reverse

/-- Python `str.startswith`. -/
def startsWithStr (pre s : Str) : Bool := List.isPrefixOf pre s

/-- Python `str.split(sep)` for a one-character separator; always returns at
least one piece, and preserves empty pieces. -/
def pySplitOn (sep : Char) : Str → List Str
  | [] => [[]]
  | c :: rest =>
    match pySplitOn sep rest with
    | [] => [[c]]
    | h :: t => if c = sep then [] :: h :: t else (c :: h) :: t

/-- Python `sep.join(parts)`. -/
def pyJoin (sep : Str) : List Str → Str
  | [] => []
  | [a] => a
  | a :: rest => a ++ sep ++ pyJoin sep rest

/-- `src/app/utils.py`, `split_args` (lines 36-74): split a method argument
string on commas at parenthesis depth 0 and bracket depth 0, outside quotes,
stripping every produced argument.  The loop state carries both depths (which
may go negative, as in the source), the current quote character, and the
previous raw character (consulted by the backslash escape check
`arg_str[i-1] != chr(92)`).  The final `if cur:` of the source drops an empty
trailing argument. -/
def split_args_go (dp db : Int) (q : Option Char) (prev : Option Char)
    (cur : Str) : Str → List Str
  | [] => if cur = [] then [] else [pyStrip cur]
  | ch :: rest =>
    match q with
    | some qc =>
      let closing := ch = qc && (match prev with
        | some p => p ≠ Char.ofNat 92
        | none => true)
      split_args_go dp db (if closing then none else some qc) (some ch)
        (cur ++ [ch]) rest
    | none =>
      if ch = Char.ofNat 39 || ch = Char.ofNat 34 then
        split_args_go dp db (some ch) (some ch) (cur ++ [ch]) rest
      else if ch = '(' then
        split_args_go (dp + 1) db none (some ch) (cur ++ [ch]) rest
      else if ch = ')' then
        split_args_go (dp - 1) db none (some ch) (cur ++ [ch]) rest
      else if ch = '[' then
        split_args_go dp (db + 1) none (some ch) (cur ++ [ch]) rest
      else if ch = ']' then
        split_args_go dp (db - 1) none (some ch) (cur ++ [ch]) rest
      else if ch = ',' && dp = 0 && db = 0 then
        pyStrip cur :: split_args_go dp db none (some ch) [] rest
      else
        split_args_go dp db none (some ch) (cur ++ [ch]) rest

/-- `split_args` of the source, started in the initial loop state. -/
def split_args (s : Str) : List Str := split_args_go 0 0 none none [] s

/-- Number of commas the splitter sees at depth 0 outside quotes (the
"top-level" commas of the specification), computed by the same state machine. -/
def tl_commas_go (dp db : Int) (q : Option Char) (prev : Option Char) :
    Str → Nat
  | [] => 0
  | ch :: rest =>
    match q with
    | some qc =>
      let closing := ch = qc && (match prev with
        | some p => p ≠ Char.ofNat 92
        | none => true)
      tl_commas_go dp db (if closing then none else some qc) (some ch) rest
    | none =>
      if ch = Char.ofNat 39 || ch = Char.ofNat 34 then
        tl_commas_go dp db (some ch) (some ch) rest
      else if ch = '(' then tl_commas_go (dp + 1) db none (some ch) rest
      else if ch = ')' then tl_commas_go (dp - 1) db none (some ch) rest
      else if ch = '[' then tl_commas_go dp (db + 1) none (some ch) rest
      else if ch = ']' then tl_commas_go dp (db - 1) none (some ch) rest
      else if ch = ',' && dp = 0 && db = 0 then
        1 + tl_commas_go dp db none (some ch) rest
      else tl_commas_go dp db none (some ch) rest

/-- Top-level comma count of a whole argument string. -/
def tl_commas (s : Str) : Nat := tl_commas_go 0 0 none none s

/-- Whether at least one character (possibly whitespace) follows the last
top-level comma, i.e. whether the splitter ends with a nonempty `cur`. -/
def tail_nonempty_go (dp db : Int) (q : Option Char) (prev : Option Char)
    (curNe : Bool) : Str → Bool
  | [] => curNe
  | ch :: rest =>
    match q with
    | some qc =>
      let closing := ch = qc && (match prev with
        | some p => p ≠ Char.ofNat 92
        | none => true)
      tail_nonempty_go dp db (if closing then none else some qc) (some ch)
        true rest
    | none =>
      if ch = Char.ofNat 39 || ch = Char.ofNat 34 then
        tail_nonempty_go dp db (some ch) (some ch) true rest
      else if ch = '(' then tail_nonempty_go (dp + 1) db none (some ch) true rest
      else if ch = ')' then tail_nonempty_go (dp - 1) db none (some ch) true rest
      else if ch = '[' then tail_nonempty_go dp (db + 1) none (some ch) true rest
      else if ch = ']' then tail_nonempty_go dp (db - 1) none (some ch) true rest
      else if ch = ',' && dp = 0 && db = 0 then
        tail_nonempty_go dp db none (some ch) false rest
      else tail_nonempty_go dp db none (some ch) true rest

/-- Whether the final accumulated argument of the splitter is nonempty. -/
def tail_nonempty (s : Str) : Bool := tail_nonempty_go 0 0 none none false s

/-! ### Python numeric literals

`is_number` of the source calls Python `float()`.  We embed the accepted
grammar (optional surrounding whitespace, optional sign, a decimal numeral
with optional single underscores between digits, optional fraction and
exponent, or the special words inf/infinity/nan) and the exact decimal value
of a finite literal as `mantissa * 10 ^ exponent`.  Modelling note: Python
rounds to binary floating point; the claims only ever force evaluation of
small integral literals, where the decimal value is exact. -/

/-- A parsed Python float literal. -/
inductive PyFloat where
  | finite (mantissa : Int) (exp10 : Int)
  | infinite (pos : Bool)
  | nan
  deriving DecidableEq

/-- Continue a digit group: more digits, or a single underscore followed by a
digit (Python numeric literal rule). -/
def digitsUAux : Str → (List Char × Str)
  | [] => ([], [])
  | c :: rest =>
    if c.isDigit then
      let (ds, r) := digitsUAux rest
      (c :: ds, r)
    else if c = '_' then
      match rest with
      | d :: rest2 =>
        if d.isDigit then
          let (ds, r) := digitsUAux rest2
          (d :: ds, r)
        else ([], c :: rest)
      | [] => ([], [c])
    else ([], c :: rest)

/-- Parse a digit group with optional single underscores between digits;
returns the digits (underscores removed) and the rest, or `none` when the
input does not start with a digit. -/
def digitsU : Str → Option (List Char × Str)
  | [] => none
  | c :: rest =>
    if c.isDigit then
      let (ds, r) := digitsUAux rest
      some (c :: ds, r)
    else none

/-- Natural value of a digit list. -/
def digitsVal (ds : List Char) : Nat :=
  ds.foldl (fun acc c => acc * 10 + (c.toNat - 48)) 0

/-- Parse the unsigned body of a Python float literal (after sign removal):
either digits with optional fraction, or a leading-dot fraction, with an
optional exponent.  Returns mantissa and base-10 exponent. -/
def pyFloatBody (s : Str) : Option (Int × Int × Str) :=
  let core : Option (Nat × Nat × Nat × Str) :=
    match digitsU s with
    | some (ip, r1) =>
      match r1 with
      | '.' :: r2 =>
        match digitsU r2 with
        | some (fp, r3) => some (digitsVal ip, digitsVal fp, fp.length, r3)
        | none => some (digitsVal ip, 0, 0, r2)
      | _ => some (digitsVal ip, 0, 0, r1)
    | none =>
      match s with
      | '.' :: r2 =>
        match digitsU r2 with
        | some (fp, r3) => some (0, digitsVal fp, fp.length, r3)
        | none => none
      | _ => none
  match core with
  | none => none
  | some (ip, fp, flen, rest) =>
    let mant : Int := (ip * 10 ^ flen + fp : Nat)
    let e0 : Int := -(flen : Int)
    match rest with
    | c :: r1 =>
      if c = 'e' || c = 'E' then
        let (esign, r2) : Int × Str :=
          match r1 with
          | '+' :: r => (1, r)
          | '-' :: r => (-1, r)
          | r => (1, r)
        match digitsU r2 with
        | some (eds, r3) => some (mant, e0 + esign * (digitsVal eds : Int), r3)
        | none => none
      else some (mant, e0, c :: r1)
    | [] => some (mant, e0, [])

/-- Python `float(s)` acceptance and value. -/
def pyFloat (s : Str) : Option PyFloat :=
  let t := pyStrip s
  let (neg, body) : Bool × Str :=
    match t with
    | '+' :: r => (false, r)
    | '-' :: r => (true, r)
    | r => (false, r)
  let low := pyLower body
  if low = cs "inf" || low = cs "infinity" then some (.infinite (!neg))
  else if low = cs "nan" then some .nan
  else
    match pyFloatBody body with
    | some (m, e, []) =>
      some (.finite (if neg then -m else m) e)
    | _ => none

/-- `src/app/utils.py`, `is_number` (lines 11-16). -/
def is_number (s : Str) : Bool := (pyFloat s).isSome

/-- Truncation toward zero of `m / 10 ^ k` (Python `int()` on a float). -/
def truncZero (m : Int) (k : Nat) : Int :=
  if 0 ≤ m then ((m.toNat / 10 ^ k : Nat) : Int)
  else -(((-m).toNat / 10 ^ k : Nat) : Int)

/-- Python `int(float(s))`: errors when `float(s)` fails, or is infinite
(OverflowError) or nan (ValueError). -/
def pyIntFloat (s : Str) : Except Str Int :=
  match pyFloat s with
  | none => .error (cs "could not convert string to float")
  | some .nan => .error (cs "cannot convert float NaN to integer")
  | some (.infinite _) => .error (cs "cannot convert float infinity to integer")
  | some (.finite m e) =>
    .ok (if 0 ≤ e then m * 10 ^ e.toNat else truncZero m (-e).toNat)

/-! ### Values and column expressions

Cell values of the columnar backend.  Floating-point literals are kept
symbolic (`floatLit` stores the literal text): no claim of this development
forces evaluation of floating-point arithmetic. -/

/-- A cell value of the backend. -/
inductive PValue where
  | null
  | int (n : Int)
  | floatLit (s : Str)
  | str (s : Str)
  | bool (b : Bool)
  deriving DecidableEq

set_option maxHeartbeats 2000000 in
/-- The column expressions the parsers of `src/app/utils.py` can build.  Each
constructor corresponds to one backend expression form appearing in the
source; n-ary string concatenation (`concat_str`) is modelled as left-nested
binary concatenation (same backend semantics, no claim distinguishes them). -/
inductive PExpr where
  | col (name : Str)
  | lit (v : PValue)
  | add (a b : PExpr) | sub (a b : PExpr) | mul (a b : PExpr)
  | div (a b : PExpr) | mod (a b : PExpr)
  | round (a : PExpr) (prec : Int) | abs (a : PExpr)
  | eq (a b : PExpr) | ne (a b : PExpr) | gt (a b : PExpr) | lt (a b : PExpr)
  | ge (a b : PExpr) | le (a b : PExpr)
  | band (a b : PExpr) | bor (a b : PExpr) | bnot (a : PExpr)
  | whenOtherwise (c t f : PExpr)
  | concat2 (a b : PExpr)
  | substr2 (base start : PExpr) | substr3 (base start len : PExpr)
  | replaceAll (base find repl : PExpr)
  | upper (a : PExpr) | lower (a : PExpr) | stripChars (a : PExpr)
  | lenChars (a : PExpr)
  | castUtf8 (a : PExpr)
  | castInt64Lax (a : PExpr) | castFloat64Lax (a : PExpr) | castUtf8Lax (a : PExpr)
  | castBool (a : PExpr)
  | isInStrs (a : PExpr) (set : List Str)
  | strptimeDT (a : PExpr) (fmt : Str) | strptimeDate (a : PExpr) (fmt : Str)
  | dtStrftime (a : PExpr) (fmt : Str)
  | offsetByDays (a : PExpr) (n : Int)
  | totalDays (a : PExpr)
  | currentDate
  | dtYear (a : PExpr) | dtMonth (a : PExpr) | dtDay (a : PExpr)
  | strSplit (a : PExpr) (delim : Str)
  | arrLen (a : PExpr) | arrGet (a i : PExpr)
  | arrSum (a : PExpr) | arrMean (a : PExpr) | arrMin (a : PExpr)
  | arrMax (a : PExpr)
  deriving DecidableEq

/-- Result of `parse_transform_expression`: either a column expression or the
`(family, method, raw-args)` tuple returned for the FILTER / FILTERS
families (the Python function returns a tuple there instead of an
expression). -/
inductive TransResult where
  | expr (e : PExpr)
  | filterAct (family : Str) (method : Str) (args : List Str)
  deriving DecidableEq

/-- Whether the backend statically reports a text dtype for an expression.
Modelled from the spec: the source consults `Expr.dtype` of the columnar
backend (an external collaborator, not part of this repository) before
inserting a text cast; we model the query as static knowledge of a text
result type.  No claim of this development depends on this predicate. -/
def expr_dtype_is_utf8 : PExpr → Bool
  | .lit (.str _) => true
  | .castUtf8 _ => true
  | .castUtf8Lax _ => true
  | .upper _ => true
  | .lower _ => true
  | .stripChars _ => true
  | .replaceAll _ _ _ => true
  | .concat2 _ _ => true
  | .substr2 _ _ => true
  | .substr3 _ _ _ => true
  | .dtStrftime _ _ => true
  | _ => false

/-- Conditionally insert the text cast, as the repeated source pattern
`if not base.dtype == pl.Utf8: base = base.cast(pl.Utf8)`. -/
def ensureUtf8 (e : PExpr) : PExpr :=
  if expr_dtype_is_utf8 e then e else .castUtf8 e

/-- Whether the backend's textual form of an expression begins with `col(`:
true for a column and for every method-chain expression rooted at one (the
source tests `str(base).startswith` with that prefix); operator forms,
literals and aggregate constructors print differently. -/
def reprRootIsCol : PExpr → Bool
  | .col _ => true
  | .round a _ => reprRootIsCol a
  | .abs a => reprRootIsCol a
  | .upper a => reprRootIsCol a
  | .lower a => reprRootIsCol a
  | .stripChars a => reprRootIsCol a
  | .lenChars a => reprRootIsCol a
  | .castUtf8 a => reprRootIsCol a
  | .castUtf8Lax a => reprRootIsCol a
  | .castInt64Lax a => reprRootIsCol a
  | .castFloat64Lax a => reprRootIsCol a
  | .castBool a => reprRootIsCol a
  | .isInStrs a _ => reprRootIsCol a
  | .strptimeDT a _ => reprRootIsCol a
  | .strptimeDate a _ => reprRootIsCol a
  | .dtStrftime a _ => reprRootIsCol a
  | .offsetByDays a _ => reprRootIsCol a
  | .totalDays a => reprRootIsCol a
  | .dtYear a => reprRootIsCol a
  | .dtMonth a => reprRootIsCol a
  | .dtDay a => reprRootIsCol a
  | .strSplit a _ => reprRootIsCol a
  | .arrLen a => reprRootIsCol a
  | .arrGet a _ => reprRootIsCol a
  | .arrSum a => reprRootIsCol a
  | .arrMean a => reprRootIsCol a
  | .arrMin a => reprRootIsCol a
  | .arrMax a => reprRootIsCol a
  | .substr2 a _ => reprRootIsCol a
  | .substr3 a _ _ => reprRootIsCol a
  | .replaceAll a _ _ => reprRootIsCol a
  | _ => false

/-- `src/app/utils.py`, `try_parse_literal` (lines 18-34).  The source calls
`int(float(token))`, which raises on inf/nan tokens; the error propagates, so
the embedding returns `Except`. -/
def try_parse_literal (tok : Str) : Except Str (Option PValue) :=
  let token := pyStrip tok
  -- the source condition is `len >= 2 and token[0] == token[-1] and
  -- token[0] in quotes`; the pure conjunction is reordered here (same value)
  if (token.head? = some (Char.ofNat 39) ∨ token.head? = some (Char.ofNat 34)) ∧
      token.head? = token.getLast? ∧ 2 ≤ token.length then
    .ok (some (.str (token.drop 1 |>.dropLast)))
  else if is_number token then
    if token.contains '.' then
      .ok (some (.floatLit token))
    else
      match pyIntFloat token with
      | .ok n => .ok (some (.int n))
      | .error e => .error e
  else if pyLower token = cs "true" then .ok (some (.bool true))
  else if pyLower token = cs "false" then .ok (some (.bool false))
  else .ok none

/-- Match the pattern of `parse_attr`, first alternative:
`fullmatch attr( ws quote (.+?) quote ws )` case-insensitively, where each
quote independently matches a single or double quote and the group is lazy
(shortest content whose closing quote is followed by optional whitespace and
the final parenthesis). -/
def matchAttrQuoted (s : Str) : Option Str :=
  let isQ (c : Char) : Bool := c = Char.ofNat 39 || c = Char.ofNat 34
  if startsWithStr (cs "attr(") (pyLower s) then
    let r1 := (s.drop 5).dropWhile isWS
    match r1 with
    | q :: r2 =>
      if isQ q then
        -- lazy scan: the earliest closing quote whose suffix is ws* ')' end
        let isClose (suffix : Str) : Bool :=
          match suffix.dropWhile isWS with
          | [')'] => true
          | _ => false
        matchAttrScan isQ isClose [] r2
      else none
    | [] => none
  else none
where
  /-- Scan for the earliest admissible closing quote; the group is nonempty. -/
  matchAttrScan (isQ : Char → Bool) (isClose : Str → Bool) (acc : Str) :
      Str → Option Str
  | [] => none
  | c :: rest =>
    if isQ c ∧ acc ≠ [] ∧ isClose rest then some acc.reverse
    else matchAttrScan isQ isClose (c :: acc) rest

/-- Match the pattern of `parse_attr`, second alternative:
`fullmatch ATTR( [^)]+ )` case-sensitively: the string is `ATTR(` then a
nonempty run without closing parentheses, then a final `)`. -/
def matchAttrBare (s : Str) : Option Str :=
  if startsWithStr (cs "ATTR(") s then
    let body := s.drop 5
    match body.getLast? with
    | some ')' =>
      let inner := body.dropLast
      if inner ≠ [] ∧ inner.all (· ≠ ')') then some inner else none
    | _ => none
  else none

/-- `src/app/utils.py`, `parse_attr` (lines 76-85): quoted form first
(case-insensitive), then the bare `ATTR(column)` form; the captured name is
stripped. -/
def parse_attr (tok : Str) : Option PExpr :=
  let t := pyStrip tok
  match matchAttrQuoted t with
  | some name => some (.col (pyStrip name))
  | none =>
    match matchAttrBare t with
    | some name => some (.col (pyStrip name))
    | none => none

/-! ### Regex matchers of the expression parser -/

/-- Match `(\w+)\s*\((.*)\)$`: a method name, optional whitespace, an opening
parenthesis, then a greedy group ending at the final character, which must be
the closing parenthesis. -/
def matchMethodCall (s : Str) : Option (Str × Str) :=
  let w := s.takeWhile isWordChar
  if w = [] then none
  else
    match (s.drop w.length).dropWhile isWS with
    | '(' :: r2 =>
      match r2.getLast? with
      | some ')' => some (w, r2.dropLast)
      | _ => none
    | _ => none

/-- Match `(\w+)\s*\[(.*)\]\s*$`: an operation name, `[`, then a greedy group
up to the last `]` that is followed only by whitespace. -/
def matchOpBracket (s : Str) : Option (Str × Str) :=
  let w := s.takeWhile isWordChar
  if w = [] then none
  else
    match (s.drop w.length).dropWhile isWS with
    | '[' :: r2 =>
      let r3 := dropTrailWS r2
      match r3.getLast? with
      | some ']' => some (w, r3.dropLast)
      | _ => none
    | _ => none

/-- Match `trns:\s*(\w+)\s*\[(.*)\]\s*$` case-insensitively. -/
def matchTransBracket (s : Str) : Option (Str × Str) :=
  if pyLower (s.take 5) = cs "trns:" then
    matchOpBracket ((s.drop 5).dropWhile isWS)
  else none

/-- Quote characters of the DSL. -/
def isQuoteChar (c : Char) : Bool := c = Char.ofNat 39 || c = Char.ofNat 34

/-- Python `s.strip().strip(quote-chars)`, the repeated idiom
`args[i].strip().strip(chr(39)+chr(34))` of the source. -/
def stripQuotes (s : Str) : Str :=
  pyStripSet [Char.ofNat 39, Char.ofNat 34] (pyStrip s)

/-- Match the prefix regex `NAME\s*\(\s*['\"](.+?)['\"]\s*\)` (case-insensitive
`re.match`, so trailing text after the closing parenthesis is permitted);
returns the lazily captured group. -/
def matchFmtCall (name : Str) (t : Str) : Option Str :=
  if pyLower (t.take name.length) = pyLower name then
    match (t.drop name.length).dropWhile isWS with
    | '(' :: r2 =>
      match r2.dropWhile isWS with
      | q :: r4 =>
        if isQuoteChar q then
          let isClose (suffix : Str) : Bool :=
            match suffix.dropWhile isWS with
            | ')' :: _ => true
            | _ => false
          fmtScan isClose [] r4
        else none
      | [] => none
    | _ => none
  else none
where
  /-- Lazy group scan: earliest quote whose suffix begins `ws* )`. -/
  fmtScan (isClose : Str → Bool) (acc : Str) : Str → Option Str
  | [] => none
  | c :: rest =>
    if isQuoteChar c ∧ acc ≠ [] ∧ isClose rest then some acc.reverse
    else fmtScan isClose (c :: acc) rest

/-- First-occurrence split: Python `expr.split(op, 1)` when `op in expr`. -/
def findSub (pat : Str) : Str → Option (Str × Str)
  | [] => if pat = [] then some ([], []) else none
  | c :: rest =>
    if List.isPrefixOf pat (c :: rest) then some ([], (c :: rest).drop pat.length)
    else
      match findSub pat rest with
      | some (l, r) => some (c :: l, r)
      | none => none

/-- `src/app/utils.py`, `parse_date_format` (lines 188-190): `fmt or default`. -/
def parse_date_format (fmt : Option Str) : Str :=
  match fmt with
  | some f => if f = [] then cs "%m%d%Y" else f
  | none => cs "%m%d%Y"

/-- List indexing with the IndexError of Python `args[i]`. -/
def getArg (args : List Str) (i : Nat) : Except Str Str :=
  match args.get? i with
  | some a => .ok a
  | none => .error (cs "list index out of range")

/-- Using a FILTER/FILTERS tuple where a column expression is required: the
backend raises (TypeError/AttributeError) as soon as an expression method is
invoked on the tuple. -/
def as_expr : TransResult → Except Str PExpr
  | .expr e => .ok e
  | .filterAct _ _ _ =>
    .error (cs "filter tuple used where a column expression is required")

/-! ### The mutually recursive parser cluster

`parse_value`, `parse_boolean_expr`, `parse_transform_expression` and
`coerce_simple_transform` of `src/app/utils.py` recurse into each other
without a structural measure; the embedding adds an explicit fuel argument
(decremented at every cross-call) and public wrappers supplying ample fuel. -/

mutual

/-- `src/app/utils.py`, `parse_value` (lines 192-211). -/
def parse_valueF : Nat → Str → Except Str TransResult
  | 0, _ => .error (cs "recursion limit exceeded")
  | n + 1, tok =>
    let token := pyStrip tok
    if startsWithStr (cs "trns:") token then
      parse_transform_expressionF n token
    else
      match parse_attr token with
      | some e => .ok (.expr e)
      | none =>
        if pyLower token = cs "true" then .ok (.expr (.lit (.bool true)))
        else if pyLower token = cs "false" then .ok (.expr (.lit (.bool false)))
        else
          match try_parse_literal token with
          | .error e => .error e
          | .ok (some v) => .ok (.expr (.lit v))
          | .ok none => .ok (.expr (.col token))

/-- `src/app/utils.py`, `parse_boolean_expr` (lines 87-186). -/
def parse_boolean_exprF : Nat → Str → Except Str PExpr
  | 0, _ => .error (cs "recursion limit exceeded")
  | n + 1, s =>
    let pv : Str → Except Str PExpr := fun t => do as_expr (← parse_valueF n t)
    let expr := pyStrip s
    if startsWithStr (cs "BOOLEAN[") expr ∧ expr.getLast? = some ']' then
      let inner := pyStrip ((expr.drop 8).dropLast)
      match matchMethodCall inner with
      | none => .error (cs "Malformed BOOLEAN expression")
      | some (methRaw, argsStr) =>
        let method := pyUpper methRaw
        let args := split_args argsStr
        let bin (k : PExpr → PExpr → PExpr) : Except Str PExpr :=
          match args with
          | [a, b] => do pure (k (← pv a) (← pv b))
          | _ => .error (cs "cannot unpack arguments")
        if method = cs "EQUALS" then bin .eq
        else if method = cs "EQ" then bin .eq
        else if method = cs "NOT_EQUALS" then bin .ne
        else if method = cs "GREATER_THAN" then bin .gt
        else if method = cs "GT" then bin .gt
        else if method = cs "LESS_THAN" then bin .lt
        else if method = cs "GREATER_OR_EQUAL" then bin .ge
        else if method = cs "LESS_OR_EQUAL" then bin .le
        else .error (cs "Unsupported BOOLEAN method")
    else if startsWithStr (cs "IF(") expr ∧ expr.getLast? = some ')' then
      let inner := pyStrip ((expr.drop 3).dropLast)
      let args := split_args inner
      if 3 ≤ args.length then do
        let cond ← parse_boolean_exprF n (args.getD 0 [])
        let tv ← pv (args.getD 1 [])
        let fv ← pv (args.getD 2 [])
        pure (.whenOtherwise cond tv fv)
      else .error (cs "IF statement requires 3 arguments")
    else if [cs "EQ(", cs "GT(", cs "LT(", cs "GTE(", cs "LTE(", cs "NE("].any
        (fun p => startsWithStr p expr) then
      match matchMethodCall (pyStrip expr) with
      | some (methRaw, argsStr) =>
        let method := pyUpper methRaw
        let args := split_args argsStr
        let bin (k : PExpr → PExpr → PExpr) : Except Str PExpr :=
          match args with
          | [a, b] => do pure (k (← pv a) (← pv b))
          | _ => .error (cs "cannot unpack arguments")
        if method = cs "EQ" then bin .eq
        else if method = cs "GT" then bin .gt
        else if method = cs "LT" then bin .lt
        else if method = cs "GTE" then bin .ge
        else if method = cs "LTE" then bin .le
        else if method = cs "NE" then bin .ne
        else .error (cs "Unsupported BOOLEAN method")
      | none => .error (cs "Malformed BOOLEAN expression")
    else
      match [cs "==", cs "!=", cs ">=", cs "<=", cs ">", cs "<"].findSome?
          (fun op => (findSub op expr).map (op, ·)) with
      | some (op, (left, right)) => do
        let l ← pv (pyStrip left)
        let r ← pv (pyStrip right)
        if op = cs "==" then pure (.eq l r)
        else if op = cs "!=" then pure (.ne l r)
        else if op = cs ">" then pure (.gt l r)
        else if op = cs "<" then pure (.lt l r)
        else if op = cs ">=" then pure (.ge l r)
        else pure (.le l r)
      | none => .error (cs "Unsupported boolean condition")

/-- `src/app/utils.py`, `parse_transform_expression` (lines 223-464). -/
def parse_transform_expressionF : Nat → Str → Except Str TransResult
  | 0, _ => .error (cs "recursion limit exceeded")
  | n + 1, s =>
    let pv : Str → Except Str PExpr := fun t => do as_expr (← parse_valueF n t)
    let expr := pyStrip s
    let m :=
      if startsWithStr (cs "trns:") (pyLower expr) then matchTransBracket expr
      else matchOpBracket expr
    match m with
    | none => .error (cs "Malformed transform expression")
    | some (opRaw, innerRaw) =>
      let op := pyUpper opRaw
      let inner := pyStrip innerRaw
      match matchMethodCall inner with
      | none => .error (cs "Malformed method")
      | some (methRaw, argsStr) =>
        let method := pyUpper methRaw
        let args := split_args argsStr
        if op = cs "MATH" then do
          let a ← pv (← getArg args 0)
          if method = cs "ADD" then do pure (.expr (.add a (← pv (← getArg args 1))))
          else if method = cs "SUB" then do pure (.expr (.sub a (← pv (← getArg args 1))))
          else if method = cs "MUL" then do pure (.expr (.mul a (← pv (← getArg args 1))))
          else if method = cs "DIV" then do pure (.expr (.div a (← pv (← getArg args 1))))
          else if method = cs "MOD" then do pure (.expr (.mod a (← pv (← getArg args 1))))
          else if method = cs "ROUND" then do
            let prec ←
              match pyIntFloat (pyStrip (← getArg args 1)) with
              | .ok k => pure k
              | .error e => throw e
            pure (.expr (.round a prec))
          else if method = cs "ABS" then pure (.expr (.abs a))
          else .error (cs "Unsupported MATH method")
        else if op = cs "STRING" then
          if method = cs "CONCAT" then do
            let parts ← args.mapM pv
            match parts with
            | [] => .error (cs "concat_str of no inputs")
            | p :: ps => pure (.expr (ps.foldl .concat2 p))
          else if method = cs "SUBSTR" then do
            let base := ensureUtf8 (← pv (← getArg args 0))
            let start ← pv (← getArg args 1)
            if 2 < args.length then do
              pure (.expr (.substr3 base start (← pv (← getArg args 2))))
            else pure (.expr (.substr2 base start))
          else if method = cs "REPLACE" then do
            let base := ensureUtf8 (← pv (← getArg args 0))
            let find ← pv (← getArg args 1)
            let repl ← pv (← getArg args 2)
            pure (.expr (.replaceAll base find repl))
          else if method = cs "UPPER" then do
            pure (.expr (.upper (ensureUtf8 (← pv (← getArg args 0)))))
          else if method = cs "LOWER" then do
            pure (.expr (.lower (ensureUtf8 (← pv (← getArg args 0)))))
          else if method = cs "TRIM" then do
            pure (.expr (.stripChars (ensureUtf8 (← pv (← getArg args 0)))))
          else if method = cs "LENGTH" then do
            pure (.expr (.lenChars (ensureUtf8 (← pv (← getArg args 0)))))
          else .error (cs "Unsupported STRING method")
        else if op = cs "LOGICAL" then
          if method = cs "IF" then do
            let cond ← parse_boolean_exprF n (← getArg args 0)
            let tv ← pv (← getArg args 1)
            let fv ← pv (← getArg args 2)
            pure (.expr (.whenOtherwise cond tv fv))
          else if method = cs "AND" then do
            let exps ← args.mapM (parse_boolean_exprF n)
            match exps with
            | [] => .error (cs "list index out of range")
            | e :: es => pure (.expr (es.foldl .band e))
          else if method = cs "OR" then do
            let exps ← args.mapM (parse_boolean_exprF n)
            match exps with
            | [] => .error (cs "list index out of range")
            | e :: es => pure (.expr (es.foldl .bor e))
          else if method = cs "NOT" then do
            pure (.expr (.bnot (← parse_boolean_exprF n (← getArg args 0))))
          else .error (cs "Unsupported LOGICAL method")
        else if op = cs "BOOLEAN" then do
          let rebuilt :=
            cs "BOOLEAN[" ++ method ++ cs "(" ++ pyJoin (cs ", ") args ++ cs ")]"
          pure (.expr (← parse_boolean_exprF n rebuilt))
        else if op = cs "FILTERS" then .ok (.filterAct (cs "FILTERS") method args)
        else if op = cs "FILTER" then .ok (.filterAct (cs "FILTER") method args)
        else if op = cs "DIRECT" then
          if method = cs "ATTR" then do
            parse_valueF n (← getArg args 0)
          else .error (cs "Unsupported DIRECT method")
        else if op = cs "DATE" then
          if method = cs "FORMAT" then do
            let base ← parse_valueF n (← getArg args 0)
            let fmt := stripQuotes (← getArg args 1)
            match base with
            | .expr e =>
              if reprRootIsCol e then
                pure (.expr (.dtStrftime (.strptimeDT e fmt) fmt))
              else
                -- building `base.dt.strftime(fmt)` is lazy and never raises,
                -- so the try block of the source always succeeds here
                pure (.expr (.dtStrftime e fmt))
            | .filterAct f mth as =>
              -- both attribute accesses raise; the source falls back to
              -- `return base`, handing the tuple through unchanged
              pure (.filterAct f mth as)
          else if method = cs "PARSE" then do
            let base ← pv (← getArg args 0)
            let fmt := parse_date_format
              (if 1 < args.length then some (stripQuotes (args.getD 1 [])) else none)
            pure (.expr (.strptimeDate (.castUtf8 base) fmt))
          else if method = cs "ADD_DAYS" then do
            let base ← pv (← getArg args 0)
            match pyIntFloat (← getArg args 1) with
            | .ok k => pure (.expr (.offsetByDays base k))
            | .error e => throw e
          else if method = cs "SUB_DAYS" then do
            let base ← pv (← getArg args 0)
            match pyIntFloat (← getArg args 1) with
            | .ok k => pure (.expr (.offsetByDays base (-k)))
            | .error e => throw e
          else if method = cs "DIFF_DAYS" then do
            let d1 ← pv (← getArg args 0)
            let d2 ← pv (← getArg args 1)
            pure (.expr (.totalDays (.sub d1 d2)))
          else if method = cs "DIFF" then do
            let r1 ← parse_valueF n (← getArg args 0)
            let r2 ← parse_valueF n (← getArg args 1)
            let unit := if 2 < args.length then stripQuotes (args.getD 2 []) else cs "days"
            match r1, r2 with
            | .expr e1, .expr e2 =>
              if reprRootIsCol e1 && reprRootIsCol e2 then
                if pyLower unit = cs "days" then
                  pure (.expr (.totalDays (.sub
                    (.strptimeDT e1 (cs "%Y-%m-%d"))
                    (.strptimeDT e2 (cs "%Y-%m-%d")))))
                else .error (cs "Unsupported DATE DIFF unit")
              else
                if pyLower unit = cs "days" then
                  pure (.expr (.totalDays (.sub e1 e2)))
                else .error (cs "Unsupported DATE DIFF unit")
            | a, b =>
              if pyLower unit = cs "days" then do
                pure (.expr (.totalDays (.sub (← as_expr a) (← as_expr b))))
              else .error (cs "Unsupported DATE DIFF unit")
          else if method = cs "CURRENT_DATE" then pure (.expr .currentDate)
          else if method = cs "EXTRACT" then do
            let base ← pv (← getArg args 0)
            let part := pyLower (stripQuotes (← getArg args 1))
            if part = cs "year" then pure (.expr (.dtYear base))
            else if part = cs "month" then pure (.expr (.dtMonth base))
            else if part = cs "day" then pure (.expr (.dtDay base))
            else .error (cs "Unsupported DATE EXTRACT part")
          else .error (cs "Unsupported DATE method")
        else if op = cs "ARRAY" then
          if method = cs "JOIN" then do
            let base ← parse_valueF n (← getArg args 0)
            let _delim := stripQuotes (← getArg args 1)
            -- passthrough: the source returns the first argument unchanged
            pure base
          else if method = cs "SPLIT" then do
            let sE ← pv (← getArg args 0)
            let delim := stripQuotes (← getArg args 1)
            pure (.expr (.strSplit (.castUtf8 sE) delim))
          else if method = cs "LENGTH" then do
            pure (.expr (.arrLen (← pv (← getArg args 0))))
          else if method = cs "GET" then do
            pure (.expr (.arrGet (← pv (← getArg args 0)) (← pv (← getArg args 1))))
          else .error (cs "Unsupported ARRAY method")
        else if op = cs "AGGREGATION" then
          if method = cs "SUM" then do pure (.expr (.arrSum (← pv (← getArg args 0))))
          else if method = cs "AVG" then do pure (.expr (.arrMean (← pv (← getArg args 0))))
          else if method = cs "MIN" then do pure (.expr (.arrMin (← pv (← getArg args 0))))
          else if method = cs "MAX" then do pure (.expr (.arrMax (← pv (← getArg args 0))))
          else if method = cs "COUNT" then do pure (.expr (.arrLen (← pv (← getArg args 0))))
          else .error (cs "Unsupported AGGREGATION method")
        else .error (cs "Unsupported OPERATION")

/-- `src/app/utils.py`, `coerce_simple_transform` (lines 466-530). -/
def coerce_simple_transformF : Nat → Str → PExpr → Except Str TransResult
  | 0, _, _ => .error (cs "recursion limit exceeded")
  | n + 1, transform, source_expr =>
    let t := pyStrip transform
    if startsWithStr (cs "trns:") (pyLower t) then
      parse_transform_expressionF n t
    else if [cs "MATH[", cs "STRING[", cs "LOGICAL[", cs "BOOLEAN[", cs "FILTER[",
        cs "DATE[", cs "ARRAY[", cs "DIRECT["].any (fun p => startsWithStr p t) then
      -- the source returns the parse result unchanged, tuple or expression
      parse_transform_expressionF n t
    else if t = cs "to_int" then .ok (.expr (.castInt64Lax source_expr))
    else if t = cs "to_float" then .ok (.expr (.castFloat64Lax source_expr))
    else if t = cs "to_str" then
      .ok (.expr (if expr_dtype_is_utf8 source_expr then source_expr
                  else .castUtf8Lax source_expr))
    else if t = cs "to_bool" then
      .ok (.expr (.castBool (.isInStrs (.lower (ensureUtf8 source_expr))
        [cs "1", cs "true", cs "y", cs "yes"])))
    else if t = cs "trim" then .ok (.expr (.stripChars (ensureUtf8 source_expr)))
    else if t = cs "upper" then .ok (.expr (.upper (ensureUtf8 source_expr)))
    else if t = cs "lower" then .ok (.expr (.lower (ensureUtf8 source_expr)))
    else
      match matchFmtCall (cs "date_format") t with
      | some fmt =>
        -- building `source_expr.dt.strftime(fmt)` is lazy and never raises,
        -- so the try block of the source always takes the first branch
        .ok (.expr (.dtStrftime source_expr fmt))
      | none =>
        match matchFmtCall (cs "to_date") t with
        | some fmt => .ok (.expr (.strptimeDate (.castUtf8 source_expr) fmt))
        | none => .error (cs "Unsupported simple transform: " ++ t)

end

/-- Fuel bound used by the public parser wrappers: strictly larger than any
recursion depth the cluster can reach on the given input. -/
def parserFuel (s : Str) : Nat := 4 * s.length + 100

/-- Public wrapper for `parse_value`. -/
def parse_value (t : Str) : Except Str TransResult := parse_valueF (parserFuel t) t

/-- Public wrapper for `parse_boolean_expr`. -/
def parse_boolean_expr (t : Str) : Except Str PExpr :=
  parse_boolean_exprF (parserFuel t) t

/-- Public wrapper for `parse_transform_expression`. -/
def parse_transform_expression (t : Str) : Except Str TransResult :=
  parse_transform_expressionF (parserFuel t) t

/-- Public wrapper for `coerce_simple_transform`. -/
def coerce_simple_transform (t : Str) (e : PExpr) : Except Str TransResult :=
  coerce_simple_transformF (parserFuel t) t e

/-! ### The columnar backend

The backend (polars) is an external collaborator of the repository; the spec
describes it only at its interface.  We model a materialized table and an
executable expression evaluator following the backend's documented semantics:
expressions evaluate columnwise to `height` cells, literals broadcast, null
propagates through scalar operations, comparisons with a null operand give
null, and `filter` keeps exactly the rows whose mask cell is boolean true
(dropping null-mask rows).  Operations whose value semantics no claim ever
forces (floating point, temporal arithmetic, list columns) evaluate to an
error so that nothing can be proved about them accidentally. -/

/-- A materialized table: named columns and a row count. -/
structure DataFrame where
  cols : List (Str × List PValue)
  height : Nat
  deriving DecidableEq

/-- Column names, as `df.columns`. -/
def DataFrame.columns (df : DataFrame) : List Str := df.cols.map Prod.fst

/-- Column lookup. -/
def DataFrame.getCol (df : DataFrame) (name : Str) : Option (List PValue) :=
  (df.cols.find? (fun p => p.1 = name)).map Prod.snd

/-- `df.head(n)`: the first `n` rows when `n` is nonnegative; a negative `n`
means all rows but the last `|n|` (documented backend behavior). -/
def DataFrame.head (df : DataFrame) (n : Int) : DataFrame :=
  let k : Nat := if 0 ≤ n then n.toNat else df.height - n.natAbs
  ⟨df.cols.map (fun p => (p.1, p.2.take k)), min df.height k⟩

/-- `df.slice(n)` with no length: drop the first `n` rows when `n` is
nonnegative; a negative offset counts from the end (documented backend
behavior). -/
def DataFrame.sliceFrom (df : DataFrame) (n : Int) : DataFrame :=
  let k : Nat := if 0 ≤ n then n.toNat else df.height - n.natAbs
  ⟨df.cols.map (fun p => (p.1, p.2.drop k)), df.height - k⟩

/-- Keep the cells of a column at the rows where the mask is boolean true. -/
def keepRows (mask : List PValue) (xs : List PValue) : List PValue :=
  ((xs.zip mask).filter (fun p => p.2 == PValue.bool true)).map Prod.fst

/-- `df.filter(mask)`: keep exactly the rows whose mask cell is boolean true;
rows with a false or null mask cell are dropped. -/
def DataFrame.filterMask (df : DataFrame) (mask : List PValue) : DataFrame :=
  ⟨df.cols.map (fun p => (p.1, keepRows mask p.2)),
   (mask.filter (· == PValue.bool true)).length⟩

/-- Decimal text of an integer, as the backend's cast of an integer cell. -/
def intToStr (n : Int) : Str := (toString n).toList

/-- Strict text cast of one cell. -/
def pvCastUtf8 : PValue → Except Str PValue
  | .null => .ok .null
  | .int n => .ok (.str (intToStr n))
  | .str s => .ok (.str s)
  | .bool b => .ok (.str (if b then cs "true" else cs "false"))
  | .floatLit _ => .error (cs "floating point text cast not modelled")

/-- Non-strict integer cast of one cell: unparseable text becomes null. -/
def pvCastInt64Lax : PValue → Except Str PValue
  | .null => .ok .null
  | .int n => .ok (.int n)
  | .bool b => .ok (.int (if b then 1 else 0))
  | .str s =>
    -- the backend parses an optional sign and decimal digits; anything else
    -- becomes null under strict=False
    (do
      let t := s
      let (neg, body) : Bool × Str :=
        match t with
        | '+' :: r => (false, r)
        | '-' :: r => (true, r)
        | r => (false, r)
      if body ≠ [] ∧ body.all (·.isDigit) then
        let v : Int := (digitsVal body : Nat)
        .ok (.int (if neg then -v else v))
      else .ok .null)
  | .floatLit _ => .error (cs "floating point cast not modelled")

/-- Negation of one boolean cell (`~cond`); null propagates. -/
def pvNot : PValue → Except Str PValue
  | .bool b => .ok (.bool (!b))
  | .null => .ok .null
  | _ => .error (cs "invert on a non-boolean cell")

/-- Kleene conjunction of boolean cells. -/
def pvAnd : PValue → PValue → Except Str PValue
  | .bool a, .bool b => .ok (.bool (a && b))
  | .bool false, .null => .ok (.bool false)
  | .null, .bool false => .ok (.bool false)
  | .null, .null => .ok .null
  | .null, .bool true => .ok .null
  | .bool true, .null => .ok .null
  | _, _ => .error (cs "conjunction on non-boolean cells")

/-- Kleene disjunction of boolean cells. -/
def pvOr : PValue → PValue → Except Str PValue
  | .bool a, .bool b => .ok (.bool (a || b))
  | .bool true, .null => .ok (.bool true)
  | .null, .bool true => .ok (.bool true)
  | .null, .null => .ok .null
  | .null, .bool false => .ok .null
  | .bool false, .null => .ok .null
  | _, _ => .error (cs "disjunction on non-boolean cells")

/-- Lexicographic text order of the backend. -/
def strLt : Str → Str → Bool
  | [], [] => false
  | [], _ :: _ => true
  | _ :: _, [] => false
  | a :: as, b :: bs => if a = b then strLt as bs else a < b

/-- One comparison cell: null operands give null; same-kind scalar operands
compare; anything else is a backend error. -/
def pvCmp (kind : Nat) : PValue → PValue → Except Str PValue
  | .null, _ => .ok .null
  | _, .null => .ok .null
  | .int a, .int b =>
    .ok (.bool (if kind = 0 then a = b else if kind = 1 then a ≠ b
      else if kind = 2 then b < a else if kind = 3 then a < b
      else if kind = 4 then b ≤ a else a ≤ b))
  | .str a, .str b =>
    .ok (.bool (if kind = 0 then a = b else if kind = 1 then a ≠ b
      else if kind = 2 then strLt b a else if kind = 3 then strLt a b
      else if kind = 4 then !(strLt a b) else !(strLt b a)))
  | .bool a, .bool b =>
    if kind = 0 then .ok (.bool (a = b))
    else if kind = 1 then .ok (.bool (a ≠ b))
    else .error (cs "ordering on boolean cells not modelled")
  | _, _ => .error (cs "comparison on mismatched cell kinds")

/-- One arithmetic cell: exact integer arithmetic with null propagation. -/
def pvArith (kind : Nat) : PValue → PValue → Except Str PValue
  | .null, _ => .ok .null
  | _, .null => .ok .null
  | .int a, .int b =>
    if kind = 0 then .ok (.int (a + b))
    else if kind = 1 then .ok (.int (a - b))
    else if kind = 2 then .ok (.int (a * b))
    else .error (cs "integer division and modulo not modelled")
  | _, _ => .error (cs "arithmetic on non-integer cells")

/-- Text concatenation of one cell pair (`concat_str`): null propagates,
non-text scalars are text-coerced. -/
def pvConcat (a b : PValue) : Except Str PValue := do
  match ← pvCastUtf8 a, ← pvCastUtf8 b with
  | .null, _ => pure .null
  | _, .null => pure .null
  | .str x, .str y => pure (.str (x ++ y))
  | _, _ => throw (cs "text concatenation on non-text cells")

/-- ASCII upper-casing of one text cell. -/
def pvUpper : PValue → Except Str PValue
  | .null => .ok .null
  | .str s => .ok (.str (pyUpper s))
  | _ => .error (cs "string namespace on a non-text cell")

/-- ASCII lower-casing of one text cell. -/
def pvLower : PValue → Except Str PValue
  | .null => .ok .null
  | .str s => .ok (.str (pyLower s))
  | _ => .error (cs "string namespace on a non-text cell")

/-- Whitespace stripping of one text cell. -/
def pvStripChars : PValue → Except Str PValue
  | .null => .ok .null
  | .str s => .ok (.str (pyStrip s))
  | _ => .error (cs "string namespace on a non-text cell")

/-- Character count of one text cell. -/
def pvLenChars : PValue → Except Str PValue
  | .null => .ok .null
  | .str s => .ok (.int s.length)
  | _ => .error (cs "string namespace on a non-text cell")

/-- Membership of one text cell in a fixed list. -/
def pvIsIn (set : List Str) : PValue → Except Str PValue
  | .null => .ok .null
  | .str s => .ok (.bool (set.contains s))
  | _ => .error (cs "is_in on a non-text cell")

/-- Boolean cast of one cell. -/
def pvCastBool : PValue → Except Str PValue
  | .null => .ok .null
  | .bool b => .ok (.bool b)
  | .int n => .ok (.bool (n ≠ 0))
  | _ => .error (cs "boolean cast not modelled on this cell")

/-- Conditional cell (`when/then/otherwise`); a null condition gives null. -/
def pvWhen (c t f : PValue) : Except Str PValue :=
  match c with
  | .bool true => .ok t
  | .bool false => .ok f
  | .null => .ok .null
  | _ => .error (cs "condition cell is not boolean")

/-- Map a per-cell operation over a column. -/
def mapCells (f : PValue → Except Str PValue) (xs : List PValue) :
    Except Str (List PValue) := xs.mapM f

/-- Length of the common broadcast target of sibling series: all non-unit
lengths must agree, and an all-unit family stays at one row (the backend
broadcasts unit-length series, and only those, against their siblings). -/
def commonLen (ls : List Nat) : Except Str Nat :=
  match ls.filter (· ≠ 1) with
  | [] => .ok 1
  | n :: rest =>
    if rest.all (· = n) then .ok n
    else .error (cs "series length mismatch")

/-- Broadcast a series to the target length: a unit series is repeated, any
other series must already have the target length. -/
def broadcastTo (n : Nat) (xs : List PValue) : Except Str (List PValue) :=
  if xs.length = n then .ok xs
  else if xs.length = 1 then .ok (List.replicate n (xs.headD PValue.null))
  else .error (cs "series length mismatch")

/-- Zip a per-cell operation over two series, broadcasting a unit operand
against the other as the backend does inside expressions. -/
def zipCells (f : PValue → PValue → Except Str PValue)
    (xs ys : List PValue) : Except Str (List PValue) := do
  let n ← commonLen [xs.length, ys.length]
  let xs2 ← broadcastTo n xs
  let ys2 ← broadcastTo n ys
  (xs2.zip ys2).mapM (fun p => f p.1 p.2)

/-- Evaluate an expression over a table to a column of `df.height` cells.
A missing column is the backend's ColumnNotFoundError.  Temporal, list and
floating-point operations are deliberately not given a value semantics. -/
def eval_expr (df : DataFrame) : PExpr → Except Str (List PValue)
  | .col name =>
    match df.getCol name with
    | some c => .ok c
    | none => .error (cs "column not found: " ++ name)
  | .lit v =>
    -- a literal is a unit series (one row); it broadcasts only against
    -- sibling series, never against the frame
    .ok [v]
  | .add a b => do zipCells (pvArith 0) (← eval_expr df a) (← eval_expr df b)
  | .sub a b => do zipCells (pvArith 1) (← eval_expr df a) (← eval_expr df b)
  | .mul a b => do zipCells (pvArith 2) (← eval_expr df a) (← eval_expr df b)
  | .div _ _ => .error (cs "float division not modelled")
  | .mod _ _ => .error (cs "modulo not modelled")
  | .round a _ => do
    mapCells (fun v => match v with
      | .null => .ok .null
      | .int n => .ok (.int n)
      | _ => .error (cs "round not modelled on this cell")) (← eval_expr df a)
  | .abs a => do
    mapCells (fun v => match v with
      | .null => .ok .null
      | .int n => .ok (.int n.natAbs)
      | _ => .error (cs "abs not modelled on this cell")) (← eval_expr df a)
  | .eq a b => do zipCells (pvCmp 0) (← eval_expr df a) (← eval_expr df b)
  | .ne a b => do zipCells (pvCmp 1) (← eval_expr df a) (← eval_expr df b)
  | .gt a b => do zipCells (pvCmp 2) (← eval_expr df a) (← eval_expr df b)
  | .lt a b => do zipCells (pvCmp 3) (← eval_expr df a) (← eval_expr df b)
  | .ge a b => do zipCells (pvCmp 4) (← eval_expr df a) (← eval_expr df b)
  | .le a b => do zipCells (pvCmp 5) (← eval_expr df a) (← eval_expr df b)
  | .band a b => do zipCells pvAnd (← eval_expr df a) (← eval_expr df b)
  | .bor a b => do zipCells pvOr (← eval_expr df a) (← eval_expr df b)
  | .bnot a => do mapCells pvNot (← eval_expr df a)
  | .whenOtherwise c t f => do
    let cc ← eval_expr df c
    let tc ← eval_expr df t
    let fc ← eval_expr df f
    let n ← commonLen [cc.length, tc.length, fc.length]
    let cc2 ← broadcastTo n cc
    let tc2 ← broadcastTo n tc
    let fc2 ← broadcastTo n fc
    ((cc2.zip tc2).zip fc2).mapM (fun p => pvWhen p.1.1 p.1.2 p.2)
  | .concat2 a b => do zipCells pvConcat (← eval_expr df a) (← eval_expr df b)
  | .substr2 _ _ => .error (cs "substring not modelled")
  | .substr3 _ _ _ => .error (cs "substring not modelled")
  | .replaceAll _ _ _ => .error (cs "replace_all not modelled")
  | .upper a => do mapCells pvUpper (← eval_expr df a)
  | .lower a => do mapCells pvLower (← eval_expr df a)
  | .stripChars a => do mapCells pvStripChars (← eval_expr df a)
  | .lenChars a => do mapCells pvLenChars (← eval_expr df a)
  | .castUtf8 a => do mapCells pvCastUtf8 (← eval_expr df a)
  | .castUtf8Lax a => do mapCells pvCastUtf8 (← eval_expr df a)
  | .castInt64Lax a => do mapCells pvCastInt64Lax (← eval_expr df a)
  | .castFloat64Lax _ => .error (cs "floating point cast not modelled")
  | .castBool a => do mapCells pvCastBool (← eval_expr df a)
  | .isInStrs a set => do mapCells (pvIsIn set) (← eval_expr df a)
  | .strptimeDT _ _ => .error (cs "temporal parsing not modelled")
  | .strptimeDate _ _ => .error (cs "temporal parsing not modelled")
  | .dtStrftime _ _ => .error (cs "temporal formatting not modelled")
  | .offsetByDays _ _ => .error (cs "temporal arithmetic not modelled")
  | .totalDays _ => .error (cs "temporal arithmetic not modelled")
  | .currentDate => .error (cs "impure current date not modelled")
  | .dtYear _ => .error (cs "temporal extraction not modelled")
  | .dtMonth _ => .error (cs "temporal extraction not modelled")
  | .dtDay _ => .error (cs "temporal extraction not modelled")
  | .strSplit _ _ => .error (cs "list columns not modelled")
  | .arrLen _ => .error (cs "list columns not modelled")
  | .arrGet _ _ => .error (cs "list columns not modelled")
  | .arrSum _ => .error (cs "list columns not modelled")
  | .arrMean _ => .error (cs "list columns not modelled")
  | .arrMin _ => .error (cs "list columns not modelled")
  | .arrMax _ => .error (cs "list columns not modelled")

/-- Evaluate the aliased expressions of a selection left to right. -/
def select_cols (df : DataFrame) : List (Str × PExpr) →
    Except Str (List (Str × List PValue))
  | [] => .ok []
  | (n, e) :: es => do
    let c ← eval_expr df e
    let rest ← select_cols df es
    pure ((n, c) :: rest)

/-- Broadcast every selected column to the frame's common length. -/
def broadcast_cols (n : Nat) : List (Str × List PValue) →
    Except Str (List (Str × List PValue))
  | [] => .ok []
  | (nm, c) :: rest => do
    let c2 ← broadcastTo n c
    let rest2 ← broadcast_cols n rest
    pure ((nm, c2) :: rest2)

/-- Assemble evaluated series into a frame.  The backend broadcasts unit
series against full-length siblings; a selection of only unit series (for
example a lone scalar literal) therefore yields a single-row frame
regardless of the input height, and an empty selection an empty frame. -/
def assemble_df : List (Str × List PValue) → Except Str DataFrame
  | [] => .ok ⟨[], 0⟩
  | c0 :: rest => do
    let n ← commonLen ((c0 :: rest).map (fun p => p.2.length))
    let cols2 ← broadcast_cols n (c0 :: rest)
    pure ⟨cols2, n⟩

/-- `df.select([...])`: evaluate every aliased expression against the table
and assemble the output columns in order, with the backend's broadcast
rules. -/
def select_df (df : DataFrame) (es : List (Str × PExpr)) :
    Except Str DataFrame := do
  assemble_df (← select_cols df es)

/-! ### The mapping pipeline (`src/app/transformer.py`) -/

/-- Error taxonomy of `src/app/exceptions.py` as raised by the transformer. -/
inductive PyErr where
  | mappingError (msg : Str)
  | transformError (msg : Str)
  deriving DecidableEq

/-- A mapping record.  A field is `none` when the key is absent (a key
explicitly bound to Python `None` behaves identically everywhere the
transformer reads it). -/
structure Mapping where
  target : Option Str := none
  affected_target : Option Str := none
  source : Option Str := none
  affected_source : Option Str := none
  transform : Option Str := none
  trns : Option Str := none
  dflt : Option PValue := none
  deriving DecidableEq

/-- Python `a or b` on two optional strings: the first operand wins unless it
is absent or empty (falsy). -/
def pyOr (a b : Option Str) : Option Str :=
  match a with
  | some s => if s = [] then b else some s
  | none => b

/-- Python truthiness of an optional string. -/
def isTruthy : Option Str → Bool
  | some s => s ≠ []
  | none => false

/-- `src/app/transformer.py`, `_build_expr_for_mapping` (lines 7-72).
Returns `none` for a mapping whose transform parses to a FILTER/FILTERS
tuple (the mapping contributes no projection), `some e` for a projection
expression, and an error otherwise.  Errors raised inside the transform
application are wrapped into a TransformError; the missing-source check runs
before it and raises a MappingError unwrapped. -/
def build_expr_for_mapping (df : DataFrame) (m : Mapping) :
    Except PyErr (Option PExpr) :=
  let target := pyOr m.target m.affected_target
  let source := pyOr m.source m.affected_source
  let transform := pyOr m.transform m.trns
  let applyTransform (src_expr : PExpr) : Except PyErr (Option PExpr) :=
    match transform with
    | some t =>
      if t ≠ [] then
        let parsed :=
          if startsWithStr (cs "trns:") (pyLower (pyStrip t)) then
            parse_transform_expression t
          else
            coerce_simple_transform t src_expr
        match parsed with
        | .ok (.filterAct _ _ _) => .ok none
        | .ok (.expr e) => .ok (some e)
        | .error e =>
          .error (.transformError (cs "Failed to apply transform for target " ++
            (target.getD (cs "None")) ++ cs ": " ++ e))
      else
        -- unreachable: `pyOr` never yields `some []` for the transform unless
        -- both keys are present and the alias is the empty string, in which
        -- case `if transform:` is false in the source as well
        if source = none ∧ m.dflt = none then
          .error (.mappingError (cs "Mapping requires at least one of source/transform/default."))
        else .ok (some src_expr)
    | none =>
      if source = none ∧ m.dflt = none then
        .error (.mappingError (cs "Mapping requires at least one of source/transform/default."))
      else .ok (some src_expr)
  match source with
  | some s =>
    let source_columns := (pySplitOn ',' s).map pyStrip
    let missing := source_columns.filter (fun c => !(df.columns.contains c))
    if missing ≠ [] then
      match m.dflt with
      | some d => applyTransform (.lit d)
      | none =>
        .error (.mappingError (cs "Source column(s) not found and no default provided."))
    else
      applyTransform (.col (source_columns.headD []))
  | none =>
    match m.dflt with
    | some d =>
      if transform = none then .ok (some (.lit d))
      else applyTransform (.lit .null)
    | none => applyTransform (.lit .null)

/-- `src/app/transformer.py`, `_apply_filter` (lines 74-105): parse the trns
field (falling back to transform), and apply the FILTER/FILTERS action to the
table; a non-filter parse returns the table unchanged; every raised error is
wrapped into a TransformError. -/
def apply_filter (df : DataFrame) (m : Mapping) : Except PyErr DataFrame :=
  let transform := pyStrip ((m.trns.getD (m.transform.getD [])))
  let run : Except Str DataFrame :=
    match parse_transform_expression transform with
    | .ok (.filterAct _ methRaw args) =>
      let method := pyUpper methRaw
      if method = cs "INCLUDE_IF" then do
        let cond ← parse_boolean_expr (← getArg args 0)
        let mask ← eval_expr df cond
        pure (df.filterMask mask)
      else if method = cs "EXCLUDE_IF" then do
        let cond ← parse_boolean_expr (← getArg args 0)
        let mask ← eval_expr df cond
        let negMask ← mapCells pvNot mask
        pure (df.filterMask negMask)
      else if method = cs "LIMIT" then do
        match pyIntFloat (← getArg args 0) with
        | .ok k => pure (df.head k)
        | .error e => throw e
      else if method = cs "OFFSET" then do
        match pyIntFloat (← getArg args 0) with
        | .ok k => pure (df.sliceFrom k)
        | .error e => throw e
      else if method = cs "INCLUDE" then do
        let cond ← parse_boolean_expr (← getArg args 0)
        let mask ← eval_expr df cond
        pure (df.filterMask mask)
      else .error (cs "Unsupported FILTER/FILTERS method")
    | .ok (.expr _) => .ok df
    | .error e => .error e
  match run with
  | .ok out => .ok out
  | .error e => .error (.transformError (cs "Failed to apply FILTER transform: " ++ e))

/-- The filter phase of `apply_transformations` (lines 210-214): every mapping
whose raw `trns` value starts with the exact text `FILTER[` or `FILTERS[` is
applied as a filter, in declaration order; all other mappings are skipped. -/
def filter_phase (df : DataFrame) : List Mapping → Except PyErr DataFrame
  | [] => .ok df
  | m :: ms => do
    let t := m.trns.getD []
    if startsWithStr (cs "FILTER[") t || startsWithStr (cs "FILTERS[") t then
      filter_phase (← apply_filter df m) ms
    else
      filter_phase df ms

/-- Output column name of a projection mapping (line 202 of the source):
`mp.get(affected_target, mp.get(target, no_target))` — presence-based, with
the alias consulted first. -/
def out_name (m : Mapping) : Str :=
  m.affected_target.getD (m.target.getD (cs "no_target"))

/-- The expression-building loop of `apply_transformations` (lines 186-202):
build every mapping's expression against the input table (errors abort the
whole run), skip filter mappings, and alias each projection. -/
def build_select_exprs (df : DataFrame) : List Mapping →
    Except PyErr (List (Str × PExpr))
  | [] => .ok []
  | m :: ms => do
    let e? ← build_expr_for_mapping df m
    let rest ← build_select_exprs df ms
    match e? with
    | none => pure rest
    | some e => pure ((out_name m, e) :: rest)

/-- `src/app/transformer.py`, `apply_transformations` (lines 142-233): reject
an empty mapping list, build all expressions against the input table, apply
the trns-keyed filters in declaration order, then evaluate the projections as
one selection against the filtered table.  Errors of the execution phase are
wrapped into a TransformError. -/
def apply_transformations (df : DataFrame) (mappings : List Mapping) :
    Except PyErr DataFrame := do
  if mappings = [] then
    throw (.transformError (cs "Mappings list cannot be empty"))
  else
    let select_exprs ← build_select_exprs df mappings
    let phase : Except PyErr DataFrame := do
      let df2 ← filter_phase df mappings
      match select_df df2 select_exprs with
      | .ok out => pure out
      | .error e => throw (.transformError e)
    match phase with
    | .ok out => pure out
    | .error (.transformError e) =>
      throw (.transformError (cs "Transformation failed: " ++ e))
    | .error (.mappingError e) =>
      throw (.transformError (cs "Transformation failed: " ++ e))

deriving instance DecidableEq for Except

/-- Whether a mapping contributes a projection (its expression builds to
`some`); a filter mapping builds to `none` and contributes no column. -/
def is_projection (df : DataFrame) (m : Mapping) : Bool :=
  match build_expr_for_mapping df m with
  | .ok (some _) => true
  | _ => false

/-- The same mapping rewritten onto the alias keys
(`affected_target` / `affected_source` / `trns`). -/
def aliasOf (m : Mapping) : Mapping :=
  { target := none, affected_target := m.target,
    source := none, affected_source := m.source,
    transform := none, trns := m.transform,
    dflt := m.dflt }

/-! ## Theorems settling the claims -/

/-- Successful bind steps of the exception monad. -/
theorem exc_bind_ok {ε α β : Type} (x : α) (f : α → Except ε β) :
    (Except.ok x >>= f) = f x := rfl

/-- Failing bind steps of the exception monad. -/
theorem exc_bind_error {ε α β : Type} (e : ε) (f : α → Except ε β) :
    ((Except.error e : Except ε α) >>= f) = .error e := rfl

/-- `pure` of the exception monad. -/
theorem exc_pure {ε α : Type} (x : α) : (pure x : Except ε α) = .ok x := rfl

/-- `throw` of the exception monad. -/
theorem exc_throw {ε α : Type} (e : ε) : (throw e : Except ε α) = .error e := rfl

/-- Appending after a list whose last character is not whitespace distributes
over trailing-whitespace removal. -/
theorem dropTrailWS_append (a b : Str)
    (h : ∀ x, a.getLast? = some x → isWS x = false) :
    dropTrailWS (a ++ b) = a ++ dropTrailWS b := by
  induction a with
  | nil => rfl
  | cons c a ih =>
    rcases a with _ | ⟨d, a2⟩
    · have hc : isWS c = false := h c rfl
      have hstep : dropTrailWS ([c] ++ b) =
          match dropTrailWS b with
          | [] => if isWS c then [] else [c]
          | r => c :: r := rfl
      rw [hstep]
      cases hb : dropTrailWS b with
      | nil => simp [hc]
      | cons e r => rfl
    · have ih2 := ih (fun x hx => h x (by rw [List.getLast?_cons_cons]; exact hx))
      have hstep : dropTrailWS (c :: (d :: a2 ++ b)) =
          match dropTrailWS (d :: a2 ++ b) with
          | [] => if isWS c then [] else [c]
          | r => c :: r := rfl
      rw [List.cons_append, hstep, ih2]
      rfl

/-- Stripping a string with an explicit nonempty prefix whose head and last
characters are not whitespace keeps that prefix intact. -/
theorem pyStrip_concrete_prefix (c : Char) (a b : Str)
    (hc : isWS c = false)
    (hlast : ∀ x, (c :: a).getLast? = some x → isWS x = false) :
    pyStrip ((c :: a) ++ b) = (c :: a) ++ dropTrailWS b := by
  unfold pyStrip
  have hlead : dropLeadWS ((c :: a) ++ b) = (c :: a) ++ b := by
    simp [dropLeadWS, List.dropWhile, hc]
  rw [hlead, dropTrailWS_append (c :: a) b hlast]

/-- Trailing-whitespace removal is idempotent. -/
theorem dropTrailWS_idem (s : Str) : dropTrailWS (dropTrailWS s) = dropTrailWS s := by
  induction s with
  | nil => rfl
  | cons c rest ih =>
    have hstep : dropTrailWS (c :: rest) =
        match dropTrailWS rest with
        | [] => if isWS c then [] else [c]
        | r => c :: r := rfl
    cases h : dropTrailWS rest with
    | nil =>
      rw [hstep, h]
      by_cases hc : isWS c
      · simp [hc, dropTrailWS]
      · simp [hc, dropTrailWS]
    | cons d r2 =>
      rw [hstep, h]
      have h2 : dropTrailWS (d :: r2) = d :: r2 := by
        have h3 := ih
        rw [h] at h3
        exact h3
      have hstep2 : dropTrailWS (c :: d :: r2) =
          match dropTrailWS (d :: r2) with
          | [] => if isWS c then [] else [c]
          | r => c :: r := rfl
      rw [hstep2, h2]

/-- For any token whose stripped form is headed by the literal text MATH[ and
stable under trailing-whitespace removal, `parse_value` yields a bare column
reference named by the whole stripped token, for every positive fuel: the
value parser checks only for the exact lowercase `trns:` prefix and has no
recognizer for the `OP[...]` form. -/
theorem parse_valueF_math_bracket (n : Nat) (t w : Str)
    (h : pyStrip t = cs "MATH[" ++ w) (hw : dropTrailWS w = w) :
    parse_valueF (n + 1) t = .ok (.expr (.col (cs "MATH[" ++ w))) := by
  have hs2 : pyStrip (cs "MATH[" ++ w) = cs "MATH[" ++ w := by
    have h0 := pyStrip_concrete_prefix 'M' (cs "ATH[") w (by decide)
      (by
        intro x hx
        have h2 : some '[' = some x := hx
        cases h2
        decide)
    rw [hw] at h0
    exact h0
  simp only [parse_valueF, parse_attr, try_parse_literal, is_number, pyFloat]
  rw [h]
  simp only [hs2]
  rfl

/-- On any string headed by the literal prefix FILTERS[ the simple-transform
vocabulary falls through to its final error, for every fuel and source
expression: the unprefixed-form check recognizes `FILTER[` but not
`FILTERS[`. -/
theorem coerceF_filters_any (n : Nat) (z : Str) (e : PExpr) :
    coerce_simple_transformF (n + 1) (cs "FILTERS[" ++ z) e =
      .error (cs "Unsupported simple transform: " ++ (cs "FILTERS[" ++ dropTrailWS z)) := by
  have hstrip : pyStrip (cs "FILTERS[" ++ z) = cs "FILTERS[" ++ dropTrailWS z := by
    exact pyStrip_concrete_prefix 'F' (cs "ILTERS[") z (by decide)
      (by
        intro x hx
        have h2 : some '[' = some x := hx
        cases h2
        decide)
  simp only [coerce_simple_transformF]
  rw [hstrip]
  rfl

/-- C10: a mapping whose `trns` value uses the FILTERS family without the
`trns:` prefix fails while its expression is built (the string falls through
`coerce_simple_transform` to the simple-transform vocabulary and is rejected,
and `_build_expr_for_mapping` wraps the failure into a TransformError),
whereas the same action written as `FILTER[...]` or with the `trns:` prefix
builds without error (returning no projection). -/
theorem C10_filters_unprefixed_rejected :
    (∀ (z : Str) (e : PExpr), ∃ msg,
      coerce_simple_transform (cs "FILTERS[" ++ z) e = .error msg) ∧
    (∀ df, ∃ msg, build_expr_for_mapping df
      { trns := some (cs "FILTERS[LIMIT(5)]") } = .error (.transformError msg)) ∧
    (∀ df, build_expr_for_mapping df
      { trns := some (cs "FILTER[LIMIT(5)]") } = .ok none) ∧
    (∀ df, build_expr_for_mapping df
      { trns := some (cs "trns: FILTERS[LIMIT(5)]") } = .ok none) := by
  refine ⟨?_, ?_, ?_, ?_⟩
  · intro z e
    refine ⟨cs "Unsupported simple transform: " ++ (cs "FILTERS[" ++ dropTrailWS z), ?_⟩
    have hf : parserFuel (cs "FILTERS[" ++ z) =
        (4 * (cs "FILTERS[" ++ z).length + 99) + 1 := by
      simp [parserFuel]
    show coerce_simple_transformF (parserFuel (cs "FILTERS[" ++ z))
      (cs "FILTERS[" ++ z) e = _
    rw [hf]
    exact coerceF_filters_any _ z e
  · intro df
    exact ⟨_, rfl⟩
  · intro df
    rfl
  · intro df
    rfl

/-- C5 counterexample: the token `MATH[ADD(1,2)]` has the form `OP[...]` with
the recognized operation family MATH, yet the Value Parser resolves it as a
bare column reference named by the whole token — it never recurses into the
Expression Parser, contradicting the claim. -/
theorem C5_counterexample :
    parse_value (cs "MATH[ADD(1,2)]") =
      .ok (.expr (.col (cs "MATH[ADD(1,2)]"))) := rfl

/-- C5 (amended): the Value Parser recurses into the Expression Parser only
for tokens beginning with the exact lowercase prefix `trns:`; a token of the
form `OP[...]` without that prefix is never recognized (every `MATH[...`
token becomes a bare column reference named by the stripped token), and the
prefix check is case-sensitive (`TRNS: ...` also becomes a bare column
reference), while the exact prefix does recurse and returns the parsed
nested expression. -/
theorem C5_trns_prefix_exact_no_op_recursion :
    (∀ z : Str, parse_value (cs "MATH[" ++ z) =
      .ok (.expr (.col (cs "MATH[" ++ dropTrailWS z)))) ∧
    parse_value (cs "TRNS: MATH[ADD(1,2)]") =
      .ok (.expr (.col (cs "TRNS: MATH[ADD(1,2)]"))) ∧
    parse_value (cs "trns: MATH[ADD(1,2)]") =
      .ok (.expr (.add (.lit (.int 1)) (.lit (.int 2)))) := by
  refine ⟨?_, rfl, rfl⟩
  intro z
  have h : pyStrip (cs "MATH[" ++ z) = cs "MATH[" ++ dropTrailWS z :=
    pyStrip_concrete_prefix 'M' (cs "ATH[") z (by decide)
      (by
        intro x hx
        have h2 : some '[' = some x := hx
        cases h2
        decide)
  have hf : parserFuel (cs "MATH[" ++ z) =
      (4 * (cs "MATH[" ++ z).length + 99) + 1 := by simp [parserFuel]
  show parse_valueF (parserFuel (cs "MATH[" ++ z)) (cs "MATH[" ++ z) = _
  rw [hf]
  exact parse_valueF_math_bracket _ _ _ h (dropTrailWS_idem z)

/-- C3: the quoted form `DIRECT[ATTR('c')]`, declared by the source comment to
"directly use the column value" and by the spec to be the identity projection
of the named column, in fact compiles to the constant string literal `c`:
`parse_value` receives the still-quoted token `'c'` and resolves it as a text
literal, never as a column.  Over the table with column `c = [x, y]` the sole
mapping therefore selects a lone scalar literal, which the backend
materializes as the single-row frame with column `c = [c]` — not the
claimed identity column `[x, y]` at height 2. -/
theorem C3_direct_attr_quoted_is_literal :
    apply_transformations
      ⟨[(cs "c", [.str (cs "x"), .str (cs "y")])], 2⟩
      [{ target := some (cs "c"),
         transform := some (cs "DIRECT[ATTR(\x27c\x27)]") }] =
      .ok ⟨[(cs "c", [.str (cs "c")])], 1⟩ ∧
    apply_transformations
      ⟨[(cs "c", [.str (cs "x"), .str (cs "y")])], 2⟩
      [{ target := some (cs "c"),
         transform := some (cs "DIRECT[ATTR(\x27c\x27)]") }] ≠
      .ok ⟨[(cs "c", [.str (cs "x"), .str (cs "y")])], 2⟩ := by
  constructor
  · rfl
  · decide

/-- A mapping whose transform parses to a LIMIT action takes the first `k`
rows, where `k` is the integer reading of the raw argument. -/
theorem apply_filter_limit (df : DataFrame) (m : Mapping) (fam a : Str) (k : Int)
    (hparse : parse_transform_expression (pyStrip (m.trns.getD (m.transform.getD []))) =
      .ok (.filterAct fam (cs "LIMIT") [a]))
    (hk : pyIntFloat a = .ok k) :
    apply_filter df m = .ok (df.head k) := by
  simp +decide [apply_filter, hparse, hk, getArg, exc_bind_ok, exc_bind_error, exc_pure, exc_throw]

/-- A mapping whose transform parses to an OFFSET action drops the first `k`
rows. -/
theorem apply_filter_offset (df : DataFrame) (m : Mapping) (fam a : Str) (k : Int)
    (hparse : parse_transform_expression (pyStrip (m.trns.getD (m.transform.getD []))) =
      .ok (.filterAct fam (cs "OFFSET") [a]))
    (hk : pyIntFloat a = .ok k) :
    apply_filter df m = .ok (df.sliceFrom k) := by
  simp +decide [apply_filter, hparse, hk, getArg, exc_bind_ok, exc_bind_error, exc_pure, exc_throw]

/-- A mapping whose transform parses to an INCLUDE_IF action keeps exactly
the rows whose condition cell is boolean true. -/
theorem apply_filter_include_if (df : DataFrame) (m : Mapping) (fam a : Str)
    (cond : PExpr) (mask : List PValue)
    (hparse : parse_transform_expression (pyStrip (m.trns.getD (m.transform.getD []))) =
      .ok (.filterAct fam (cs "INCLUDE_IF") [a]))
    (hbool : parse_boolean_expr a = .ok cond)
    (heval : eval_expr df cond = .ok mask) :
    apply_filter df m = .ok (df.filterMask mask) := by
  simp +decide [apply_filter, hparse, hbool, heval, getArg, exc_bind_ok, exc_bind_error, exc_pure, exc_throw]

/-- INCLUDE is a synonym of INCLUDE_IF. -/
theorem apply_filter_include (df : DataFrame) (m : Mapping) (fam a : Str)
    (cond : PExpr) (mask : List PValue)
    (hparse : parse_transform_expression (pyStrip (m.trns.getD (m.transform.getD []))) =
      .ok (.filterAct fam (cs "INCLUDE") [a]))
    (hbool : parse_boolean_expr a = .ok cond)
    (heval : eval_expr df cond = .ok mask) :
    apply_filter df m = .ok (df.filterMask mask) := by
  simp +decide [apply_filter, hparse, hbool, heval, getArg, exc_bind_ok, exc_bind_error, exc_pure, exc_throw]

/-- A mapping whose transform parses to an EXCLUDE_IF action filters on the
negated mask: it keeps exactly the rows whose condition cell is boolean
false (the negation maps null to null, which the filter drops). -/
theorem apply_filter_exclude_if (df : DataFrame) (m : Mapping) (fam a : Str)
    (cond : PExpr) (mask negMask : List PValue)
    (hparse : parse_transform_expression (pyStrip (m.trns.getD (m.transform.getD []))) =
      .ok (.filterAct fam (cs "EXCLUDE_IF") [a]))
    (hbool : parse_boolean_expr a = .ok cond)
    (heval : eval_expr df cond = .ok mask)
    (hneg : mapCells pvNot mask = .ok negMask) :
    apply_filter df m = .ok (df.filterMask negMask) := by
  simp +decide [apply_filter, hparse, hbool, heval, hneg, getArg, exc_bind_ok, exc_bind_error, exc_pure, exc_throw]

/-- The filter phase distributes over list concatenation: later filter
actions see the table produced by the earlier ones. -/
theorem filter_phase_append (ms1 ms2 : List Mapping) :
    ∀ df, filter_phase df (ms1 ++ ms2) =
      (filter_phase df ms1).bind (fun d => filter_phase d ms2) := by
  induction ms1 with
  | nil => intro df; rfl
  | cons m ms ih =>
    intro df
    simp only [List.cons_append, filter_phase]
    by_cases hc : (startsWithStr (cs "FILTER[") (m.trns.getD []) ||
        startsWithStr (cs "FILTERS[") (m.trns.getD [])) = true
    · simp only [hc, if_true]
      cases ha : apply_filter df m with
      | ok d => exact ih d
      | error e => rfl
    · have hc2 : (startsWithStr (cs "FILTER[") (m.trns.getD []) ||
          startsWithStr (cs "FILTERS[") (m.trns.getD [])) = false := by
        revert hc
        cases startsWithStr (cs "FILTER[") (m.trns.getD []) ||
          startsWithStr (cs "FILTERS[") (m.trns.getD []) <;> simp
      simp only [hc2, if_false]
      exact ih df

/-- A single mapping whose `trns` value starts with the exact text `FILTER[`
is handed to `_apply_filter` by the filter phase. -/
theorem filter_phase_single (df : DataFrame) (m : Mapping) (t : Str)
    (htr : m.trns = some t)
    (hstart : startsWithStr (cs "FILTER[") t = true) :
    filter_phase df [m] = apply_filter df m := by
  simp only [filter_phase, htr, Option.getD_some, hstart, Bool.true_or, if_true]
  cases ha : apply_filter df m with
  | ok d => simp [ha, exc_bind_ok, filter_phase]
  | error e => simp [ha, exc_bind_error]

/-- C1 counterexample: a pure filter mapping written under the canonical
`transform` key parses to a FILTER action (and is skipped as a projection),
yet the execution loop never applies it — it recognizes filters only in the
`trns` field.  `FILTER[LIMIT(0)]` over a one-row table should leave zero
rows per the claim, but the output keeps the row. -/
theorem C1_counterexample :
    apply_transformations ⟨[(cs "c", [.int 1])], 1⟩
      [{ transform := some (cs "FILTER[LIMIT(0)]") },
       { target := some (cs "t"), source := some (cs "c") }] =
      .ok ⟨[(cs "t", [.int 1])], 1⟩ ∧
    apply_transformations ⟨[(cs "c", [.int 1])], 1⟩
      [{ transform := some (cs "FILTER[LIMIT(0)]") },
       { target := some (cs "t"), source := some (cs "c") }] ≠
      .ok ⟨[(cs "t", [])], 0⟩ := by
  constructor
  · rfl
  · decide

/-- C1 (amended): filter actions are applied before the projection, in
mapping-declaration order, but only for mappings whose raw `trns` value
starts with the exact text `FILTER[` or `FILTERS[` (a filter spelled in the
`transform` field, or behind the `trns:` prefix, parses to a filter action
yet is never applied — see the counterexample).  For those mappings the
actions have the claimed semantics and compose sequentially: the filter
phase distributes over concatenation, each action seeing the previous
table; LIMIT(n) takes the first n rows; OFFSET(n) drops the first n rows;
INCLUDE_IF keeps exactly the rows whose condition cell is boolean true,
INCLUDE being a synonym; EXCLUDE_IF keeps exactly the rows whose negated
condition cell is boolean true; and OFFSET(1) followed by LIMIT(2) over a
5-row table yields exactly the rows at original indices 1 and 2. -/
theorem C1_filter_pipeline :
    (∀ (ms1 ms2 : List Mapping) (df : DataFrame),
      filter_phase df (ms1 ++ ms2) =
        (filter_phase df ms1).bind (fun d => filter_phase d ms2)) ∧
    (∀ (df : DataFrame) (m : Mapping) (t fam a : Str) (k : Int),
      m.trns = some t → startsWithStr (cs "FILTER[") t = true →
      parse_transform_expression (pyStrip t) = .ok (.filterAct fam (cs "LIMIT") [a]) →
      pyIntFloat a = .ok k → 0 ≤ k →
      filter_phase df [m] = .ok (df.head k) ∧
      (df.head k).cols = df.cols.map (fun p => (p.1, p.2.take k.toNat))) ∧
    (∀ (df : DataFrame) (m : Mapping) (t fam a : Str) (k : Int),
      m.trns = some t → startsWithStr (cs "FILTER[") t = true →
      parse_transform_expression (pyStrip t) = .ok (.filterAct fam (cs "OFFSET") [a]) →
      pyIntFloat a = .ok k → 0 ≤ k →
      filter_phase df [m] = .ok (df.sliceFrom k) ∧
      (df.sliceFrom k).cols = df.cols.map (fun p => (p.1, p.2.drop k.toNat))) ∧
    (∀ (df : DataFrame) (m : Mapping) (t fam a : Str) (cond : PExpr)
        (mask : List PValue),
      m.trns = some t → startsWithStr (cs "FILTER[") t = true →
      parse_transform_expression (pyStrip t) = .ok (.filterAct fam (cs "INCLUDE_IF") [a]) →
      parse_boolean_expr a = .ok cond → eval_expr df cond = .ok mask →
      filter_phase df [m] = .ok (df.filterMask mask)) ∧
    (∀ (df : DataFrame) (m : Mapping) (t fam a : Str) (cond : PExpr)
        (mask : List PValue),
      m.trns = some t → startsWithStr (cs "FILTER[") t = true →
      parse_transform_expression (pyStrip t) = .ok (.filterAct fam (cs "INCLUDE") [a]) →
      parse_boolean_expr a = .ok cond → eval_expr df cond = .ok mask →
      filter_phase df [m] = .ok (df.filterMask mask)) ∧
    (∀ (df : DataFrame) (m : Mapping) (t fam a : Str) (cond : PExpr)
        (mask negMask : List PValue),
      m.trns = some t → startsWithStr (cs "FILTER[") t = true →
      parse_transform_expression (pyStrip t) = .ok (.filterAct fam (cs "EXCLUDE_IF") [a]) →
      parse_boolean_expr a = .ok cond → eval_expr df cond = .ok mask →
      mapCells pvNot mask = .ok negMask →
      filter_phase df [m] = .ok (df.filterMask negMask)) ∧
    apply_transformations
      ⟨[(cs "v", [.int 10, .int 11, .int 12, .int 13, .int 14])], 5⟩
      [{ trns := some (cs "FILTER[OFFSET(1)]") },
       { trns := some (cs "FILTER[LIMIT(2)]") },
       { target := some (cs "v"), source := some (cs "v") }] =
      .ok ⟨[(cs "v", [.int 11, .int 12])], 2⟩ := by
  refine ⟨filter_phase_append, ?_, ?_, ?_, ?_, ?_, by rfl⟩
  · intro df m t fam a k htr hstart hparse hk hk0
    have hparse2 : parse_transform_expression
        (pyStrip (m.trns.getD (m.transform.getD []))) =
        .ok (.filterAct fam (cs "LIMIT") [a]) := by
      rw [htr]
      exact hparse
    refine ⟨?_, ?_⟩
    · rw [filter_phase_single df m t htr hstart]
      exact apply_filter_limit df m fam a k hparse2 hk
    · simp [DataFrame.head, hk0]
  · intro df m t fam a k htr hstart hparse hk hk0
    have hparse2 : parse_transform_expression
        (pyStrip (m.trns.getD (m.transform.getD []))) =
        .ok (.filterAct fam (cs "OFFSET") [a]) := by
      rw [htr]
      exact hparse
    refine ⟨?_, ?_⟩
    · rw [filter_phase_single df m t htr hstart]
      exact apply_filter_offset df m fam a k hparse2 hk
    · simp [DataFrame.sliceFrom, hk0]
  · intro df m t fam a cond mask htr hstart hparse hbool heval
    have hparse2 : parse_transform_expression
        (pyStrip (m.trns.getD (m.transform.getD []))) =
        .ok (.filterAct fam (cs "INCLUDE_IF") [a]) := by
      rw [htr]
      exact hparse
    rw [filter_phase_single df m t htr hstart]
    exact apply_filter_include_if df m fam a cond mask hparse2 hbool heval
  · intro df m t fam a cond mask htr hstart hparse hbool heval
    have hparse2 : parse_transform_expression
        (pyStrip (m.trns.getD (m.transform.getD []))) =
        .ok (.filterAct fam (cs "INCLUDE") [a]) := by
      rw [htr]
      exact hparse
    rw [filter_phase_single df m t htr hstart]
    exact apply_filter_include df m fam a cond mask hparse2 hbool heval
  · intro df m t fam a cond mask negMask htr hstart hparse hbool heval hneg
    have hparse2 : parse_transform_expression
        (pyStrip (m.trns.getD (m.transform.getD []))) =
        .ok (.filterAct fam (cs "EXCLUDE_IF") [a]) := by
      rw [htr]
      exact hparse
    rw [filter_phase_single df m t htr hstart]
    exact apply_filter_exclude_if df m fam a cond mask negMask hparse2 hbool heval hneg

/-- C1 witness: the filter-pipeline theorem applied at concrete inputs — a
two-row table with a LIMIT(1) mapping in the trns field, and the 5-row
OFFSET/LIMIT composition. -/
theorem C1_witness :
    filter_phase ⟨[(cs "v", [.int 7, .int 8])], 2⟩
      [{ trns := some (cs "FILTER[LIMIT(1)]") }] =
      .ok (DataFrame.head ⟨[(cs "v", [.int 7, .int 8])], 2⟩ 1) ∧
    filter_phase ⟨[(cs "v", [.int 7, .int 8])], 2⟩
      [{ trns := some (cs "FILTER[OFFSET(1)]") }] =
      .ok (DataFrame.sliceFrom ⟨[(cs "v", [.int 7, .int 8])], 2⟩ 1) := by
  constructor
  · exact (C1_filter_pipeline.2.1 ⟨[(cs "v", [.int 7, .int 8])], 2⟩
      { trns := some (cs "FILTER[LIMIT(1)]") } (cs "FILTER[LIMIT(1)]")
      (cs "FILTER") (cs "1") 1 rfl (by decide) (by rfl) (by rfl) (by decide)).1
  · exact (C1_filter_pipeline.2.2.1 ⟨[(cs "v", [.int 7, .int 8])], 2⟩
      { trns := some (cs "FILTER[OFFSET(1)]") } (cs "FILTER[OFFSET(1)]")
      (cs "FILTER") (cs "1") 1 rfl (by decide) (by rfl) (by rfl) (by decide)).1

/-- C2 counterexample: a mapping with the missing source column `zz` and the
default `us` — but also a transform — does not produce the constant default:
the DSL transform `trns: MATH[ADD(1, 2)]` ignores the default binding
entirely and the output column is `[3]`, not `[us]`. -/
theorem C2_counterexample :
    apply_transformations ⟨[(cs "a", [.int 1])], 1⟩
      [{ target := some (cs "t"), source := some (cs "zz"),
         dflt := some (.str (cs "us")),
         transform := some (cs "trns: MATH[ADD(1, 2)]") }] =
      .ok ⟨[(cs "t", [.int 3])], 1⟩ ∧
    apply_transformations ⟨[(cs "a", [.int 1])], 1⟩
      [{ target := some (cs "t"), source := some (cs "zz"),
         dflt := some (.str (cs "us")),
         transform := some (cs "trns: MATH[ADD(1, 2)]") }] ≠
      .ok ⟨[(cs "t", [.str (cs "us")])], 1⟩ := by
  constructor
  · rfl
  · decide

/-- C2 (amended): for a mapping whose resolved source names at least one
column missing from the input table — when no transform is present, a
provided default `d` makes the mapping compile to the constant-`d`
projection; when no default is provided the mapping fails with a
MappingError (whatever the transform); when a transform is also present,
the default is only the bound source expression of the transform, so the
output column need not equal the constant `d` (see the counterexample).
The constant projection evaluates to a unit series holding `d`: selected
next to a real column it broadcasts to that column's length (a constant-`d`
column of the full selection height), but selected alone it materializes as
a single-row frame — not a full-post-filter-height column. -/
theorem C2_default_fallback_and_missing_error :
    (∀ (df : DataFrame) (m : Mapping) (s : Str) (d : PValue),
      pyOr m.source m.affected_source = some s →
      ((pySplitOn ',' s).map pyStrip).filter
        (fun c => !(df.columns.contains c)) ≠ [] →
      pyOr m.transform m.trns = none →
      m.dflt = some d →
      build_expr_for_mapping df m = .ok (some (.lit d))) ∧
    (∀ (df : DataFrame) (m : Mapping) (s : Str),
      pyOr m.source m.affected_source = some s →
      ((pySplitOn ',' s).map pyStrip).filter
        (fun c => !(df.columns.contains c)) ≠ [] →
      m.dflt = none →
      ∃ msg, build_expr_for_mapping df m = .error (.mappingError msg)) ∧
    (∀ (df2 : DataFrame) (d : PValue),
      eval_expr df2 (.lit d) = .ok [d]) ∧
    (∀ (n : Nat) (d : PValue),
      broadcastTo n [d] = .ok (List.replicate n d)) ∧
    (∀ (df2 : DataFrame) (nm : Str) (d : PValue),
      select_df df2 [(nm, .lit d)] = .ok ⟨[(nm, [d])], 1⟩) ∧
    (∀ (df2 : DataFrame) (nm1 nm2 c : Str) (col : List PValue) (d : PValue),
      df2.getCol c = some col →
      select_df df2 [(nm1, .col c), (nm2, .lit d)] =
        .ok ⟨[(nm1, col), (nm2, List.replicate col.length d)], col.length⟩) := by
  refine ⟨?_, ?_, fun df2 d => rfl, ?_, fun df2 nm d => rfl, ?_⟩
  · intro df m s d hsrc hmiss htr hd
    simp only [build_expr_for_mapping, hsrc, htr, hd]
    rw [if_pos hmiss]
    simp [hsrc]
  · intro df m s hsrc hmiss hd
    refine ⟨cs "Source column(s) not found and no default provided.", ?_⟩
    simp only [build_expr_for_mapping, hsrc, hd]
    rw [if_pos hmiss]
  · intro n d
    by_cases hn : n = 1
    · subst hn
      rfl
    · show broadcastTo n [d] = .ok (List.replicate n d)
      unfold broadcastTo
      rw [if_neg (fun h => hn (by simpa using h.symm)),
        if_pos (show ([d] : List PValue).length = 1 from rfl)]
      rfl
  · intro df2 nm1 nm2 c col d hcol
    by_cases hn : col.length = 1
    · simp +decide [select_df, select_cols, eval_expr, hcol, assemble_df,
        commonLen, broadcast_cols, broadcastTo, hn, exc_bind_ok,
        exc_bind_error, exc_pure, exc_throw]
    · simp +decide [select_df, select_cols, eval_expr, hcol, assemble_df,
        commonLen, broadcast_cols, broadcastTo, hn, exc_bind_ok,
        exc_bind_error, exc_pure, exc_throw]
      rw [if_neg (fun h => hn h.symm)]
      simp only [exc_bind_ok]

/-- C4 counterexample: over the one-row table whose column `x` is null, the
predicate `ATTR('x') > 5` evaluates to null, and `EXCLUDE_IF` drops the row
(the negated mask is still null, and the backend filter keeps only
boolean-true cells) — the claim says the row is retained. -/
theorem C4_counterexample :
    apply_transformations ⟨[(cs "x", [.null])], 1⟩
      [{ trns := some (cs "FILTER[EXCLUDE_IF(ATTR(\x27x\x27) > 5)]") },
       { target := some (cs "x"), source := some (cs "x") }] =
      .ok ⟨[(cs "x", [])], 0⟩ ∧
    apply_transformations ⟨[(cs "x", [.null])], 1⟩
      [{ trns := some (cs "FILTER[EXCLUDE_IF(ATTR(\x27x\x27) > 5)]") },
       { target := some (cs "x"), source := some (cs "x") }] ≠
      .ok ⟨[(cs "x", [.null])], 1⟩ := by
  constructor
  · rfl
  · decide

/-- C4 (amended): rows on which the filter predicate evaluates to null are
dropped by BOTH directions: `INCLUDE_IF(c)` keeps exactly the rows whose
condition cell is boolean true (so null is excluded, as claimed), and
`EXCLUDE_IF(c)` filters on the negated mask, whose null cells stay null
(negation of null is null), so null-predicate rows are dropped there too —
not retained as the claim states. -/
theorem C4_null_predicate_not_retained :
    (∀ (df : DataFrame) (m : Mapping) (fam a : Str) (cond : PExpr)
        (mask : List PValue),
      parse_transform_expression (pyStrip (m.trns.getD (m.transform.getD []))) =
        .ok (.filterAct fam (cs "INCLUDE_IF") [a]) →
      parse_boolean_expr a = .ok cond → eval_expr df cond = .ok mask →
      apply_filter df m = .ok (df.filterMask mask)) ∧
    (∀ (df : DataFrame) (m : Mapping) (fam a : Str) (cond : PExpr)
        (mask negMask : List PValue),
      parse_transform_expression (pyStrip (m.trns.getD (m.transform.getD []))) =
        .ok (.filterAct fam (cs "EXCLUDE_IF") [a]) →
      parse_boolean_expr a = .ok cond → eval_expr df cond = .ok mask →
      mapCells pvNot mask = .ok negMask →
      apply_filter df m = .ok (df.filterMask negMask)) ∧
    pvNot PValue.null = .ok PValue.null ∧
    (∀ (x : PValue) (xs mask : List PValue),
      keepRows (PValue.null :: mask) (x :: xs) = keepRows mask xs) := by
  refine ⟨?_, ?_, rfl, fun x xs mask => rfl⟩
  · intro df m fam a cond mask hparse hbool heval
    exact apply_filter_include_if df m fam a cond mask hparse hbool heval
  · intro df m fam a cond mask negMask hparse hbool heval hneg
    exact apply_filter_exclude_if df m fam a cond mask negMask hparse hbool heval hneg

/-- C4 witness: both filter directions applied to the one-row null table —
each keeps the rows of the null mask, i.e. none. -/
theorem C4_witness :
    apply_filter ⟨[(cs "x", [.null])], 1⟩
      { trns := some (cs "FILTER[INCLUDE_IF(ATTR(\x27x\x27) > 5)]") } =
      .ok (DataFrame.filterMask ⟨[(cs "x", [.null])], 1⟩ [.null]) ∧
    apply_filter ⟨[(cs "x", [.null])], 1⟩
      { trns := some (cs "FILTER[EXCLUDE_IF(ATTR(\x27x\x27) > 5)]") } =
      .ok (DataFrame.filterMask ⟨[(cs "x", [.null])], 1⟩ [.null]) := by
  constructor
  · exact C4_null_predicate_not_retained.1 ⟨[(cs "x", [.null])], 1⟩
      { trns := some (cs "FILTER[INCLUDE_IF(ATTR(\x27x\x27) > 5)]") }
      (cs "FILTER") (cs "ATTR(\x27x\x27) > 5")
      (.gt (.col (cs "x")) (.lit (.int 5))) [.null] (by rfl) (by rfl) (by rfl)
  · exact C4_null_predicate_not_retained.2.1 ⟨[(cs "x", [.null])], 1⟩
      { trns := some (cs "FILTER[EXCLUDE_IF(ATTR(\x27x\x27) > 5)]") }
      (cs "FILTER") (cs "ATTR(\x27x\x27) > 5")
      (.gt (.col (cs "x")) (.lit (.int 5))) [.null] [.null]
      (by rfl) (by rfl) (by rfl) (by rfl)

/-- C2 witness: the default-fallback theorem applied at a concrete missing
source: the mapping with default `us` and no transform compiles to the
constant projection, the same mapping without a default fails with a
MappingError, and selecting the constant next to the three-row column `a`
broadcasts it to a constant column of length three. -/
theorem C2_witness :
    build_expr_for_mapping ⟨[(cs "a", [.int 1])], 1⟩
      { target := some (cs "t"), source := some (cs "zz"),
        dflt := some (.str (cs "us")) } = .ok (some (.lit (.str (cs "us")))) ∧
    (∃ msg, build_expr_for_mapping ⟨[(cs "a", [.int 1])], 1⟩
      { target := some (cs "t"), source := some (cs "zz") } =
      .error (.mappingError msg)) ∧
    select_df ⟨[(cs "a", [.int 7, .int 8, .int 9])], 3⟩
      [(cs "A", .col (cs "a")), (cs "t", .lit (.str (cs "us")))] =
      .ok ⟨[(cs "A", [.int 7, .int 8, .int 9]),
            (cs "t", List.replicate ([.int 7, .int 8, .int 9] :
              List PValue).length (.str (cs "us")))],
           ([.int 7, .int 8, .int 9] : List PValue).length⟩ := by
  refine ⟨?_, ?_, ?_⟩
  · exact C2_default_fallback_and_missing_error.1 _ _ (cs "zz") _
      rfl (by decide) rfl rfl
  · exact C2_default_fallback_and_missing_error.2.1 _ _ (cs "zz")
      rfl (by decide) rfl
  · exact C2_default_fallback_and_missing_error.2.2.2.2.2 _ _ _ _ _ _ rfl

/-- Leading-whitespace removal is the identity on a string whose head is not
whitespace. -/
theorem dropLeadWS_no_ws_head (l : Str)
    (h : ∀ c, l.head? = some c → isWS c = false) : dropLeadWS l = l := by
  cases l with
  | nil => rfl
  | cons c r => simp [dropLeadWS, List.dropWhile, h c rfl]

/-- The head of a string after leading-whitespace removal is not whitespace. -/
theorem head_dropLeadWS (s : Str) :
    ∀ c, (dropLeadWS s).head? = some c → isWS c = false := by
  induction s with
  | nil => intro c h; cases h
  | cons d r ih =>
    intro c h
    by_cases hd : isWS d
    · rw [show dropLeadWS (d :: r) = dropLeadWS r from by
        simp [dropLeadWS, List.dropWhile, hd]] at h
      exact ih c h
    · rw [show dropLeadWS (d :: r) = d :: r from by
        simp [dropLeadWS, List.dropWhile, hd]] at h
      cases h
      simpa using hd

/-- Trailing-whitespace removal keeps the head unless it empties the string. -/
theorem head_dropTrailWS (l : Str) :
    dropTrailWS l = [] ∨ (dropTrailWS l).head? = l.head? := by
  cases l with
  | nil => left; rfl
  | cons c r =>
    have hstep : dropTrailWS (c :: r) =
        match dropTrailWS r with
        | [] => if isWS c then [] else [c]
        | x => c :: x := rfl
    rw [hstep]
    cases hr : dropTrailWS r with
    | nil =>
      by_cases hc : isWS c
      · left; simp [hc]
      · right; simp [hc]
    | cons d x => right; rfl

/-- Python stripping is idempotent. -/
theorem pyStrip_idem (s : Str) : pyStrip (pyStrip s) = pyStrip s := by
  unfold pyStrip
  have hhead : ∀ c, (dropTrailWS (dropLeadWS s)).head? = some c →
      isWS c = false := by
    intro c h
    rcases head_dropTrailWS (dropLeadWS s) with he | hh
    · rw [he] at h; cases h
    · rw [hh] at h; exact head_dropLeadWS s c h
  rw [dropLeadWS_no_ws_head _ hhead, dropTrailWS_idem]

/-- The splitter invariant: starting from any loop state, the number of
produced arguments equals the number of top-level commas the state machine
sees plus one exactly when the final accumulated argument is nonempty. -/
theorem split_args_go_length (s : Str) :
    ∀ (dp db : Int) (q prev : Option Char) (cur : Str),
      (split_args_go dp db q prev cur s).length =
        tl_commas_go dp db q prev s +
        (if tail_nonempty_go dp db q prev (!cur.isEmpty) s then 1 else 0) := by
  induction s with
  | nil =>
    intro dp db q prev cur
    cases cur <;> simp [split_args_go, tl_commas_go, tail_nonempty_go]
  | cons ch rest ih =>
    intro dp db q prev cur
    have hne : (cur ++ [ch]).isEmpty = false := by simp
    cases q with
    | some qc =>
      simp only [split_args_go, tl_commas_go, tail_nonempty_go]
      have h2 := ih dp db (if (ch = qc && (match prev with
        | some p => p ≠ Char.ofNat 92
        | none => true) : Bool) then none else some qc) (some ch) (cur ++ [ch])
      rw [hne] at h2
      simpa using h2
    | none =>
      simp only [split_args_go, tl_commas_go, tail_nonempty_go]
      by_cases h1 : (ch = Char.ofNat 39 || ch = Char.ofNat 34) = true
      · simp only [if_pos h1]
        have h2 := ih dp db (some ch) (some ch) (cur ++ [ch])
        rw [hne] at h2
        simpa using h2
      · simp only [if_neg h1]
        by_cases h2 : ch = '('
        · simp only [if_pos h2]
          have h3 := ih (dp + 1) db none (some ch) (cur ++ [ch])
          rw [hne] at h3
          simpa using h3
        · simp only [if_neg h2]
          by_cases h3 : ch = ')'
          · simp only [if_pos h3]
            have h4 := ih (dp - 1) db none (some ch) (cur ++ [ch])
            rw [hne] at h4
            simpa using h4
          · simp only [if_neg h3]
            by_cases h4 : ch = '['
            · simp only [if_pos h4]
              have h5 := ih dp (db + 1) none (some ch) (cur ++ [ch])
              rw [hne] at h5
              simpa using h5
            · simp only [if_neg h4]
              by_cases h5 : ch = ']'
              · simp only [if_pos h5]
                have h6 := ih dp (db - 1) none (some ch) (cur ++ [ch])
                rw [hne] at h6
                simpa using h6
              · simp only [if_neg h5]
                by_cases h6 : (ch = ',' && dp = 0 && db = 0) = true
                · simp only [if_pos h6, List.length_cons]
                  have h7 := ih dp db none (some ch) []
                  simp only [List.isEmpty_nil, Bool.not_true] at h7
                  rw [h7]
                  omega
                · simp only [if_neg h6]
                  have h7 := ih dp db none (some ch) (cur ++ [ch])
                  rw [hne] at h7
                  simpa using h7

/-- Every argument the splitter produces is the result of a strip. -/
theorem split_args_go_mem (s : Str) :
    ∀ (dp db : Int) (q prev : Option Char) (cur a : Str),
      a ∈ split_args_go dp db q prev cur s → ∃ b, a = pyStrip b := by
  induction s with
  | nil =>
    intro dp db q prev cur a ha
    by_cases hc : cur = []
    · simp [split_args_go, hc] at ha
    · simp only [split_args_go, if_neg hc] at ha
      rw [List.mem_singleton] at ha
      exact ⟨cur, ha⟩
  | cons ch rest ih =>
    intro dp db q prev cur a ha
    cases q with
    | some qc =>
      simp only [split_args_go] at ha
      exact ih _ _ _ _ _ a ha
    | none =>
      simp only [split_args_go] at ha
      by_cases h1 : (ch = Char.ofNat 39 || ch = Char.ofNat 34) = true
      · rw [if_pos h1] at ha
        exact ih _ _ _ _ _ a ha
      · rw [if_neg (by simpa using h1)] at ha
        by_cases h2 : ch = '('
        · rw [if_pos h2] at ha
          exact ih _ _ _ _ _ a ha
        · rw [if_neg h2] at ha
          by_cases h3 : ch = ')'
          · rw [if_pos h3] at ha
            exact ih _ _ _ _ _ a ha
          · rw [if_neg h3] at ha
            by_cases h4 : ch = '['
            · rw [if_pos h4] at ha
              exact ih _ _ _ _ _ a ha
            · rw [if_neg h4] at ha
              by_cases h5 : ch = ']'
              · rw [if_pos h5] at ha
                exact ih _ _ _ _ _ a ha
              · rw [if_neg h5] at ha
                by_cases h6 : (ch = ',' && dp = 0 && db = 0) = true
                · rw [if_pos h6] at ha
                  rcases List.mem_cons.mp ha with he | hm
                  · exact ⟨cur, he⟩
                  · exact ih _ _ _ _ _ a hm
                · rw [if_neg (by simpa using h6)] at ha
                  exact ih _ _ _ _ _ a ha

/-- C7 counterexample: `a,` has one top-level comma but the splitter returns
only one argument — the empty trailing argument after a trailing comma is
dropped by the final `if cur:` of the source, not preserved. -/
theorem C7_counterexample :
    split_args (cs "a,") = [cs "a"] ∧
    tl_commas (cs "a,") = 1 ∧
    (split_args (cs "a,")).length ≠ 1 + tl_commas (cs "a,") := by
  exact ⟨rfl, rfl, by decide⟩

/-- C7 (amended): every produced argument is trimmed (stripping is
idempotent on them), and for every argument string the number of produced
arguments is the number of top-level commas plus one exactly when at least
one character (even whitespace) follows the last top-level comma; when the
string ends right after a top-level comma the empty trailing argument is
dropped, so the count is just the comma count (and the empty string yields
no arguments). -/
theorem C7_split_args_count_and_trim :
    (∀ s : Str, (split_args s).length =
      tl_commas s + (if tail_nonempty s then 1 else 0)) ∧
    (∀ (s a : Str), a ∈ split_args s → pyStrip a = a) ∧
    split_args [] = [] := by
  refine ⟨?_, ?_, rfl⟩
  · intro s
    have h := split_args_go_length s 0 0 none none []
    simpa [split_args, tl_commas, tail_nonempty] using h
  · intro s a ha
    obtain ⟨b, hb⟩ := split_args_go_mem s 0 0 none none [] a ha
    rw [hb, pyStrip_idem]

/-- C7 witness: the count-and-trim theorem applied to the concrete argument
string `x , y(a,b)`: two arguments, one top-level comma, nonempty tail, and
the first produced argument is its own strip. -/
theorem C7_witness :
    (split_args (cs "x , y(a,b)")).length =
      tl_commas (cs "x , y(a,b)") +
        (if tail_nonempty (cs "x , y(a,b)") then 1 else 0) ∧
    pyStrip (cs "x") = cs "x" := by
  constructor
  · exact C7_split_args_count_and_trim.1 (cs "x , y(a,b)")
  · exact C7_split_args_count_and_trim.2.1 (cs "x , y(a,b)") (cs "x") (by decide)

/-- The selection's output columns carry exactly the alias names of the
selected expressions, in order. -/
theorem select_cols_names (df : DataFrame) :
    ∀ (es : List (Str × PExpr)) (colsOut : List (Str × List PValue)),
      select_cols df es = .ok colsOut →
      colsOut.map Prod.fst = es.map Prod.fst := by
  intro es
  induction es with
  | nil =>
    intro colsOut h
    cases h
    rfl
  | cons p es ih =>
    intro colsOut h
    obtain ⟨n, e⟩ := p
    simp only [select_cols] at h
    cases hc : eval_expr df e with
    | error err =>
      rw [hc] at h
      simp only [exc_bind_error] at h
      cases h
    | ok c =>
      rw [hc] at h
      simp only [exc_bind_ok] at h
      cases hr : select_cols df es with
      | error err =>
        rw [hr] at h
        simp only [exc_bind_error] at h
        cases h
      | ok rest =>
        rw [hr] at h
        simp only [exc_bind_ok, exc_pure] at h
        cases h
        simp only [List.map_cons, List.cons.injEq]
        exact ⟨by trivial, ih _ hr⟩

/-- The expression-building loop emits, in declaration order, one aliased
expression per mapping that is a projection and none for the filter
mappings. -/
theorem build_select_names (df : DataFrame) :
    ∀ (ms : List Mapping) (es : List (Str × PExpr)),
      build_select_exprs df ms = .ok es →
      es.map Prod.fst = (ms.filter (fun m => is_projection df m)).map out_name := by
  intro ms
  induction ms with
  | nil =>
    intro es h
    cases h
    rfl
  | cons m ms ih =>
    intro es h
    simp only [build_select_exprs] at h
    cases hb : build_expr_for_mapping df m with
    | error err =>
      rw [hb] at h
      simp only [exc_bind_error] at h
      cases h
    | ok eOpt =>
      rw [hb] at h
      simp only [exc_bind_ok] at h
      cases hr : build_select_exprs df ms with
      | error err =>
        rw [hr] at h
        simp only [exc_bind_error] at h
        cases h
      | ok rest =>
        rw [hr] at h
        simp only [exc_bind_ok] at h
        cases eOpt with
        | none =>
          simp only [exc_pure] at h
          cases h
          have hproj : is_projection df m = false := by
            simp [is_projection, hb]
          simp only [List.filter_cons, hproj]
          exact ih _ hr
        | some e =>
          simp only [exc_pure] at h
          cases h
          have hproj : is_projection df m = true := by
            simp [is_projection, hb]
          simp only [List.filter_cons, hproj, if_true, List.map_cons,
            List.cons.injEq]
          exact ⟨by trivial, ih _ hr⟩

/-- Broadcasting the selected columns to the common length preserves their
names and order. -/
theorem broadcast_cols_names (n : Nat) :
    ∀ (colsIn cols2 : List (Str × List PValue)),
      broadcast_cols n colsIn = .ok cols2 →
      cols2.map Prod.fst = colsIn.map Prod.fst := by
  intro colsIn
  induction colsIn with
  | nil =>
    intro cols2 h
    cases h
    rfl
  | cons p rest ih =>
    intro cols2 h
    obtain ⟨nm, c⟩ := p
    simp only [broadcast_cols] at h
    cases hb : broadcastTo n c with
    | error err =>
      rw [hb] at h
      simp only [exc_bind_error] at h
      cases h
    | ok c2 =>
      rw [hb] at h
      simp only [exc_bind_ok] at h
      cases hr : broadcast_cols n rest with
      | error err =>
        rw [hr] at h
        simp only [exc_bind_error] at h
        cases h
      | ok rest2 =>
        rw [hr] at h
        simp only [exc_bind_ok, exc_pure] at h
        cases h
        simp only [List.map_cons, List.cons.injEq]
        exact ⟨by trivial, ih _ hr⟩

/-- Frame assembly preserves the names and order of the selected columns. -/
theorem assemble_df_names :
    ∀ (colsIn : List (Str × List PValue)) (out : DataFrame),
      assemble_df colsIn = .ok out →
      out.cols.map Prod.fst = colsIn.map Prod.fst := by
  intro colsIn out h
  cases colsIn with
  | nil =>
    simp only [assemble_df] at h
    cases h
    rfl
  | cons c0 rest =>
    simp only [assemble_df] at h
    cases hn : commonLen ((c0 :: rest).map (fun p => p.2.length)) with
    | error err =>
      rw [hn] at h
      simp only [exc_bind_error] at h
      cases h
    | ok n =>
      rw [hn] at h
      simp only [exc_bind_ok] at h
      cases hbc : broadcast_cols n (c0 :: rest) with
      | error err =>
        rw [hbc] at h
        simp only [exc_bind_error] at h
        cases h
      | ok cols2 =>
        rw [hbc] at h
        simp only [exc_bind_ok, exc_pure] at h
        cases h
        exact broadcast_cols_names n (c0 :: rest) cols2 hbc

/-- A successful selection's output columns carry exactly the alias names of
the selected expressions, in order, through evaluation, broadcasting and
assembly. -/
theorem select_df_names (df : DataFrame) (es : List (Str × PExpr))
    (out : DataFrame) (h : select_df df es = .ok out) :
    out.cols.map Prod.fst = es.map Prod.fst := by
  unfold select_df at h
  cases hsc : select_cols df es with
  | error err =>
    rw [hsc] at h
    simp only [exc_bind_error] at h
    cases h
  | ok colsOut =>
    rw [hsc] at h
    simp only [exc_bind_ok] at h
    exact (assemble_df_names colsOut out h).trans
      (select_cols_names df es colsOut hsc)

/-- C6: when a run succeeds, the output table's column order equals the
declaration order of its projection (non-filter) mappings, each column named
by the mapping's resolved target (stated for documents that do not use the
`affected_target` alias, whose precedence is settled under C9); filter
mappings contribute no output column. -/
theorem C6_projection_order_and_names :
    ∀ (df : DataFrame) (ms : List Mapping) (out : DataFrame),
      apply_transformations df ms = .ok out →
      (∀ m ∈ ms, m.affected_target = none) →
      out.cols.map Prod.fst =
        (ms.filter (fun m => is_projection df m)).map
          (fun m => m.target.getD (cs "no_target")) := by
  intro df ms out h halias
  by_cases hempty : ms = []
  · subst hempty
    cases h
  · simp only [apply_transformations, if_neg hempty] at h
    cases hse : build_select_exprs df ms with
    | error err =>
      rw [hse] at h
      simp only [exc_bind_error] at h
      cases h
    | ok es =>
      rw [hse] at h
      simp only [exc_bind_ok] at h
      cases hph : filter_phase df ms with
      | error err =>
        rw [hph] at h
        simp only [exc_bind_error] at h
        cases err <;> cases h
      | ok df2 =>
        rw [hph] at h
        simp only [exc_bind_ok] at h
        cases hsd : select_df df2 es with
        | error err =>
          rw [hsd] at h
          simp only [] at h
          cases h
        | ok o =>
          rw [hsd] at h
          simp only [exc_pure] at h
          cases h
          exact ((select_df_names df2 es _ hsd).trans
            (build_select_names df ms es hse)).trans (by
              apply List.map_congr_left
              intro m hm
              have hmem : m ∈ ms := List.mem_of_mem_filter hm
              simp [out_name, halias m hmem])

/-- C6 witness: the order/name theorem applied to a concrete run mixing two
projections around a trns filter. -/
theorem C6_witness :
    (⟨[(cs "A", [.int 1]), (cs "B", [.int 2])], 1⟩ : DataFrame).cols.map Prod.fst =
      (([{ target := some (cs "A"), source := some (cs "a") },
          { trns := some (cs "FILTER[LIMIT(1)]") },
          { target := some (cs "B"), source := some (cs "b") }] :
        List Mapping).filter
          (fun m => is_projection ⟨[(cs "a", [.int 1]), (cs "b", [.int 2])], 1⟩ m)).map
        (fun m => m.target.getD (cs "no_target")) := by
  exact C6_projection_order_and_names
    ⟨[(cs "a", [.int 1]), (cs "b", [.int 2])], 1⟩
    [{ target := some (cs "A"), source := some (cs "a") },
     { trns := some (cs "FILTER[LIMIT(1)]") },
     { target := some (cs "B"), source := some (cs "b") }]
    ⟨[(cs "A", [.int 1]), (cs "B", [.int 2])], 1⟩
    (by rfl)
    (by decide)

/-- Python `a or b` is symmetric in operand position when the present operand
is not the empty string. -/
theorem pyOr_comm_none (a : Option Str) (h : a ≠ some []) :
    pyOr none a = pyOr a none := by
  cases a with
  | none => rfl
  | some s =>
    have hs : s ≠ [] := fun h2 => h (by rw [h2])
    simp [pyOr, hs]

/-- C9 counterexample: the alias pairs are not semantically identical.  The
same pure-filter document written with the canonical keys
(`transform`/`target`/`source`) keeps the row that the alias spelling
(`trns`/`affected_target`/`affected_source`) removes, because the execution
loop looks for filters only under `trns`; and when both `target` and
`affected_target` are present, the output column is named by the alias
(the later name), not the canonical one. -/
theorem C9_counterexample :
    apply_transformations ⟨[(cs "c", [.int 1])], 1⟩
      [{ transform := some (cs "FILTER[LIMIT(0)]") },
       { target := some (cs "t"), source := some (cs "c") }] =
      .ok ⟨[(cs "t", [.int 1])], 1⟩ ∧
    apply_transformations ⟨[(cs "c", [.int 1])], 1⟩
      [{ trns := some (cs "FILTER[LIMIT(0)]") },
       { affected_target := some (cs "t"), affected_source := some (cs "c") }] =
      .ok ⟨[(cs "t", [])], 0⟩ ∧
    apply_transformations ⟨[(cs "c", [.int 1])], 1⟩
      [{ transform := some (cs "FILTER[LIMIT(0)]") },
       { target := some (cs "t"), source := some (cs "c") }] ≠
    apply_transformations ⟨[(cs "c", [.int 1])], 1⟩
      [{ trns := some (cs "FILTER[LIMIT(0)]") },
       { affected_target := some (cs "t"), affected_source := some (cs "c") }] ∧
    apply_transformations ⟨[(cs "c", [.int 1])], 1⟩
      [{ target := some (cs "A"), affected_target := some (cs "B"),
         source := some (cs "c") }] =
      .ok ⟨[(cs "B", [.int 1])], 1⟩ := by
  refine ⟨rfl, rfl, by decide, rfl⟩

/-- C9 (amended): for a mapping that uses only the canonical keys, with no
empty-string values, rewriting it onto the alias keys compiles to the same
expression (or the same filter classification, or the same error) and the
same output column name — but the two spellings are NOT interchangeable in
general: the execution loop applies filter actions only when they are
spelled in the `trns` field, and when both members of the target pair are
present the alias name, not the canonical one, names the output column (see
the counterexample). -/
theorem C9_alias_projection_equivalence :
    ∀ (df : DataFrame) (m : Mapping),
      m.affected_target = none → m.affected_source = none → m.trns = none →
      m.target ≠ some [] → m.source ≠ some [] → m.transform ≠ some [] →
      build_expr_for_mapping df (aliasOf m) = build_expr_for_mapping df m ∧
      out_name (aliasOf m) = out_name m := by
  intro df m h1 h2 h3 h4 h5 h6
  constructor
  · simp only [build_expr_for_mapping, aliasOf, h1, h2, h3,
      pyOr_comm_none _ h4, pyOr_comm_none _ h5, pyOr_comm_none _ h6]
  · simp [out_name, aliasOf, h1]

/-- C9 witness: the alias-equivalence theorem applied to a concrete
canonical-keys mapping. -/
theorem C9_witness :
    build_expr_for_mapping ⟨[(cs "c", [.int 1])], 1⟩
      (aliasOf { target := some (cs "t"), source := some (cs "c") }) =
    build_expr_for_mapping ⟨[(cs "c", [.int 1])], 1⟩
      { target := some (cs "t"), source := some (cs "c") } ∧
    out_name (aliasOf { target := some (cs "t"), source := some (cs "c") }) =
    out_name { target := some (cs "t"), source := some (cs "c") } := by
  exact C9_alias_projection_equivalence ⟨[(cs "c", [.int 1])], 1⟩
    { target := some (cs "t"), source := some (cs "c") }
    rfl rfl rfl (by decide) (by decide) (by decide)

/-- C8 counterexample: parsing `MATH[DIV(ATTR('x'), 0)]`, whose divisor is the
literal zero, succeeds and returns the division expression — the claimed
compile-time failure does not exist in `parse_transform_expression`. -/
theorem C8_counterexample :
    parse_transform_expression (cs "MATH[DIV(ATTR(\x27x\x27), 0)]") =
      .ok (.expr (.div (.col (cs "x")) (.lit (.int 0)))) := by
  rfl

/-- C8 (amended): `MATH[DIV(a, b)]` performs no zero-divisor check at parse
time: both a literal-zero divisor and a column divisor (zero only at runtime)
compile to the division expression without error; divide-by-zero behavior is
deferred entirely to the backend's evaluation. -/
theorem C8_div_no_compile_time_zero_check :
    parse_transform_expression (cs "MATH[DIV(ATTR(\x27x\x27), 0)]") =
      .ok (.expr (.div (.col (cs "x")) (.lit (.int 0)))) ∧
    parse_transform_expression (cs "MATH[DIV(ATTR(\x27x\x27), ATTR(\x27y\x27))]") =
      .ok (.expr (.div (.col (cs "x")) (.col (cs "y")))) ∧
    parse_transform_expression (cs "MATH[DIV(1, 0)]") =
      .ok (.expr (.div (.lit (.int 1)) (.lit (.int 0)))) := by
  exact ⟨rfl, rfl, rfl⟩

end ETL
